import Mathlib

/-!
Verification development for the hokusai SPH fluid solver
(`src/hokusai_3d/hokusai/src/system.cpp`).

The C++ code is shallowly embedded: the scalar type `HReal` (a `double`)
is modelled by `ℚ`, `Vec3r` by a record of three rationals, the mutable
`System` object by an explicit `State` record, and each member function by
a pure function from `State` (and the particle being updated) to its
result.  Parallel per-particle loops with an implicit barrier become a
`stageMap` that rebuilds the particle list from the previous state, which
matches the documented barrier semantics of the OpenMP loops.

Components of the repository that are only declared in headers not present
under `src/` (the grid utility, the Morton index, the square root used by
`Vec3r::length`) are modelled from the specification; each such definition
carries a doc comment starting with `Modelled from the spec:`.
-/

namespace Hokusai

/-- 3D vector over ℚ, modelling `Vec3r` (componentwise `HReal`). -/
structure Vec3 where
  x : ℚ
  y : ℚ
  z : ℚ
deriving DecidableEq, Repr

instance : Zero Vec3 := ⟨⟨0, 0, 0⟩⟩

instance : Add Vec3 := ⟨fun a b => ⟨a.x + b.x, a.y + b.y, a.z + b.z⟩⟩

instance : Sub Vec3 := ⟨fun a b => ⟨a.x - b.x, a.y - b.y, a.z - b.z⟩⟩

instance : Neg Vec3 := ⟨fun a => ⟨-a.x, -a.y, -a.z⟩⟩

instance : SMul ℚ Vec3 := ⟨fun c a => ⟨c * a.x, c * a.y, c * a.z⟩⟩

/-- `Vec3r::dotProduct`. -/
def Vec3.dotProduct (a b : Vec3) : ℚ := a.x * b.x + a.y * b.y + a.z * b.z

/-- `Vec3r::lengthSquared`. -/
def Vec3.lengthSquared (a : Vec3) : ℚ := a.dotProduct a

/-- `MonaghanKernel`: value and analytic gradient of the interpolation
kernel.  The kernel shape lives in a header that is not part of `src/`,
and no claim depends on it, so both evaluators are kept as opaque-to-the-
claims function fields; every call site in `system.cpp` goes through
`monaghanValue` / `monaghanGradient` exactly as here. -/
structure MonaghanKernel where
  monaghanValue : Vec3 → ℚ
  monaghanGradient : Vec3 → Vec3

/-- `AkinciKernel`: cohesion/adhesion kernel evaluators (header not in
`src/`; kept as function fields, as no claim depends on their shape). -/
structure AkinciKernel where
  cohesionValue : ℚ → ℚ
  adhesionValue : ℚ → ℚ

/-- `FluidParams` (fields actually read by `system.cpp`). -/
structure FluidParams where
  mass : ℚ
  density : ℚ
  viscosity : ℚ
  cohesion : ℚ
  smoothingRadius : ℚ
  soundSpeed : ℚ
  monaghanKernel : MonaghanKernel
  akinciKernel : AkinciKernel

/-- `BoundaryParams` (fields actually read by `system.cpp`). -/
structure BoundaryParams where
  friction : ℚ
  adhesion : ℚ

/-- A fluid `Particle` with the solver-scratch fields used by
`system.cpp`; neighbor lists hold indices into the particle/boundary
arrays. -/
structure Particle where
  x : Vec3
  v : Vec3
  v_adv : Vec3
  rho : ℚ
  rho_adv : ℚ
  rho_corr : ℚ
  p : ℚ
  p_l : ℚ
  f_adv : Vec3
  f_p : Vec3
  n : Vec3
  dii_fluid : Vec3
  dii_boundary : Vec3
  sum_dij : Vec3
  aii : ℚ
  isSurface : Bool
  fluidNeighbor : List Nat
  boundaryNeighbor : List Nat
  fluidParams : FluidParams

/-- A `Boundary` sample. -/
structure Boundary where
  x : Vec3
  v : Vec3
  psi : ℚ
  boundaryParams : BoundaryParams

/-- Kernel returning zero everywhere (used only for `Inhabited` defaults). -/
def zeroMonaghan : MonaghanKernel := ⟨fun _ => 0, fun _ => 0⟩

/-- Akinci kernel returning zero everywhere (default). -/
def zeroAkinci : AkinciKernel := ⟨fun _ => 0, fun _ => 0⟩

/-- Default fluid parameters (used only for out-of-range list reads). -/
def defaultFluidParams : FluidParams :=
  ⟨0, 0, 0, 0, 0, 0, zeroMonaghan, zeroAkinci⟩

instance : Inhabited FluidParams := ⟨defaultFluidParams⟩

/-- Default particle (used only for out-of-range list reads). -/
def defaultParticle : Particle :=
  { x := 0, v := 0, v_adv := 0, rho := 0, rho_adv := 0, rho_corr := 0,
    p := 0, p_l := 0, f_adv := 0, f_p := 0, n := 0, dii_fluid := 0,
    dii_boundary := 0, sum_dij := 0, aii := 0, isSurface := false,
    fluidNeighbor := [], boundaryNeighbor := [],
    fluidParams := defaultFluidParams }

instance : Inhabited Particle := ⟨defaultParticle⟩

/-- Default boundary sample (used only for out-of-range list reads). -/
def defaultBoundary : Boundary := { x := 0, v := 0, psi := 0, boundaryParams := ⟨0, 0⟩ }

instance : Inhabited Boundary := ⟨defaultBoundary⟩

/-- Read particle `i` (`m_particles[i]`); out-of-range reads yield the
default particle and are never exercised by valid index sets. -/
def getP (ps : List Particle) (i : Nat) : Particle := ps.getD i defaultParticle

/-- Read boundary `i` (`m_boundaries[i]`). -/
def getB (bs : List Boundary) (i : Nat) : Boundary := bs.getD i defaultBoundary

/-- A grid cell coordinate (integer triple). -/
abbrev Cell := ℤ × ℤ × ℤ

/-- Modelled from the spec: `GridUtility` lives in
`gridUtility.hpp`, which is not under `src/`.  Per spec section 4.2 it
holds an axis-aligned bounding region (an origin), per-axis cell counts
and a uniform cell size (`spacing`). -/
structure GridUtility where
  origin : Vec3
  nx : ℤ
  ny : ℤ
  nz : ℤ
  spacing : ℚ

/-- Modelled from the spec: `worldToGrid` maps a world position to the
integer cell coordinate containing it (componentwise floor of the
position relative to the origin, divided by the cell size). -/
def GridUtility.worldToGrid (g : GridUtility) (p : Vec3) : Cell :=
  (⌊(p.x - g.origin.x) / g.spacing⌋, ⌊(p.y - g.origin.y) / g.spacing⌋,
   ⌊(p.z - g.origin.z) / g.spacing⌋)

/-- Modelled from the spec: a cell is inside the grid when each
coordinate is within the per-axis cell count. -/
def GridUtility.isInsideCell (g : GridUtility) (c : Cell) : Bool :=
  decide (0 ≤ c.1) && decide (c.1 < g.nx) && decide (0 ≤ c.2.1) &&
  decide (c.2.1 < g.ny) && decide (0 ≤ c.2.2) && decide (c.2.2 < g.nz)

/-- The 27 offsets of the 3×3×3 block of cells. -/
def cellOffsets : List Cell :=
  [-1, 0, 1].flatMap (fun a =>
    [-1, 0, 1].flatMap (fun b =>
      [-1, 0, 1].map (fun c => ((a : ℤ), (b : ℤ), (c : ℤ)))))

/-- Modelled from the spec: `get27Neighbors` returns the cells of the
3×3×3 block centred on the cell containing `p` that lie inside the grid
(the lookup radius argument is unused: the spec fixes the block to 27
cells under the invariant that the cell size is at least the lookup
radius).  A position whose own cell is outside the grid gets no
candidate cells — per the spec, out-of-range particles silently get no
neighbors. -/
def GridUtility.get27Neighbors (g : GridUtility) (p : Vec3) (_radius : ℚ) : List Cell :=
  let c := g.worldToGrid p
  if g.isInsideCell c then
    (cellOffsets.map (fun o => (c.1 + o.1, c.2.1 + o.2.1, c.2.2 + o.2.2))).filter
      (fun c' => g.isInsideCell c')
  else []

/-- A bucket collection indexed by grid cell (the flat `vector<vector`
`<int>>` of the C++ code, keyed here directly by the cell coordinate). -/
abbrev Buckets := Cell → List Nat

/-- Empty bucket collection. -/
def emptyBuckets : Buckets := fun _ => []

/-- Append index `i` to the bucket of cell `c` (`grid[id].push_back(i)`). -/
def pushBucket (b : Buckets) (c : Cell) (i : Nat) : Buckets :=
  fun c' => if c' = c then b c' ++ [i] else b c'

/-- `ParticleSource`: a time-gated emitter; `apply` yields the particles
emitted at the given simulation time (its body lives outside `src/`, and
no claim depends on it, so it is a function field). -/
structure ParticleSource where
  apply : ℚ → List Particle

/-- The mutable `System` state: every member of the C++ class that the
simulation loop reads or writes.  `sqrtFn` stands for the real square
root used by `Vec3r::length` (irrational in general, hence not
representable inside ℚ; no claim depends on its values). -/
structure State where
  particles : List Particle
  boundaries : List Boundary
  fluidParams : FluidParams
  boundaryParams : BoundaryParams
  gravity : Vec3
  dt : ℚ
  time : ℚ
  countTime : Nat
  maxPressureSolveIterationNb : Nat
  maxDensityError : ℚ
  averageDensity : ℚ
  meanDensity : ℚ
  densityFluctuation : ℚ
  realVolume : ℚ
  gridInfo : GridUtility
  fluidGrid : Buckets
  boundaryGrid : Buckets
  pSources : List ParticleSource
  sqrtFn : ℚ → ℚ

/-- `m_maxPressureSolveIterationNb` as set by the `System` constructors
and by `setParameters`. -/
def defaultMaxPressureSolveIterationNb : Nat := 2

/-- `m_maxDensityError` as set by the `System` constructors and by
`setParameters`. -/
def defaultMaxDensityError : ℚ := 1

/-- Modelled from the spec: machine epsilon of `HReal` (a `double`),
`std::numeric_limits<HReal>::epsilon()`, which is `2` to the power
`-52`, written as an explicit numeral so that it evaluates by kernel
reduction. -/
def machineEps : ℚ := 1 / 4503599627370496

/-- One parallel per-particle stage with its trailing barrier: particle
`i`'s new value is computed from the previous state `s` (finalized by the
preceding barrier) and from particle `i`'s current value. -/
def stageMap (s : State) (f : State → Nat → Particle → Particle) : State :=
  { s with particles := (List.range s.particles.length).map (fun i => f s i (getP s.particles i)) }

/-- `System::computeDensity` (system.cpp:90): accumulate
`mass_j * W_j(xi - xj)` over fluid neighbors and `W_i(xi - bj) * psi_j`
over boundary neighbors into `rho`. -/
def computeDensity (s : State) (_i : Nat) (pi : Particle) : Particle :=
  let rho1 := pi.fluidNeighbor.foldl (fun acc j =>
    let pj := getP s.particles j
    acc + pj.fluidParams.mass * pj.fluidParams.monaghanKernel.monaghanValue (pi.x - pj.x)) 0
  let rho2 := pi.boundaryNeighbor.foldl (fun acc j =>
    let bj := getB s.boundaries j
    acc + pi.fluidParams.monaghanKernel.monaghanValue (pi.x - bj.x) * bj.psi) rho1
  { pi with rho := rho2 }

/-- `System::computeNormal` (system.cpp:108). -/
def computeNormal (s : State) (i : Nat) (pi : Particle) : Particle :=
  let n := pi.fluidNeighbor.foldl (fun acc j =>
    if i ≠ j then
      let pj := getP s.particles j
      acc + (s.fluidParams.mass / pj.rho) • s.fluidParams.monaghanKernel.monaghanGradient (pi.x - pj.x)
    else acc) 0
  { pi with n := s.fluidParams.smoothingRadius • n }

/-- `System::isSurfaceParticle` (system.cpp:127): true iff the squared
length of the particle's normal exceeds the threshold. -/
def isSurfaceParticle (s : State) (i : Nat) (treshold : ℚ) : Bool :=
  decide ((getP s.particles i).n.lengthSquared > treshold)

/-- `System::computeViscosityForces` (system.cpp:235) as the increment it
adds to `f_adv` (zero when the pair is not approaching). -/
def computeViscosityForces (s : State) (_i j : Nat) (pi : Particle) : Vec3 :=
  let pj := getP s.particles j
  let r := pi.x - pj.x
  let vij := pi.v - pj.v
  let dotVijRij := Vec3.dotProduct vij r
  if dotVijRij < 0 then
    let gradient := ((1 : ℚ)/2) • (pi.fluidParams.monaghanKernel.monaghanGradient r +
      pj.fluidParams.monaghanKernel.monaghanGradient r)
    let epsilon : ℚ := 1/100
    let Hij := ((1 : ℚ)/2) * (pi.fluidParams.smoothingRadius + pj.fluidParams.smoothingRadius)
    let Rhoij := pi.rho + pj.rho
    let Cij := ((1 : ℚ)/2) * (pi.fluidParams.soundSpeed + pj.fluidParams.soundSpeed)
    let Vij := ((1 : ℚ)/2) * (pi.fluidParams.viscosity + pj.fluidParams.viscosity)
    let nu := Vij * Hij * Cij / Rhoij
    let Pij := -nu * (dotVijRij / (r.lengthSquared + epsilon * Hij * Hij))
    (-(pi.fluidParams.mass * pj.fluidParams.mass * Pij)) • gradient
  else 0

/-- `System::computeSurfaceTensionForces` (system.cpp:278) as the
increment it adds to `f_adv` (zero for the self pair and when neither
particle is flagged surface).  `r.length()` is `sqrtFn` applied to the
squared length. -/
def computeSurfaceTensionForces (s : State) (i j : Nat) (pi : Particle) : Vec3 :=
  if i ≠ j then
    let pj := getP s.particles j
    if pi.isSurface = true ∨ pj.isSurface = true then
      let r := pi.x - pj.x
      let kij := (pi.fluidParams.density + pj.fluidParams.density) / (pi.rho + pj.rho)
      let l := s.sqrtFn r.lengthSquared
      let Kernelij := ((1 : ℚ)/2) * (pi.fluidParams.akinciKernel.cohesionValue l +
        pj.fluidParams.akinciKernel.cohesionValue l)
      let Cij := ((1 : ℚ)/2) * (pi.fluidParams.cohesion + pj.fluidParams.cohesion)
      let cohesionForce := (-(Cij * pi.fluidParams.mass * pj.fluidParams.mass * Kernelij / l)) • r
      let nij := pi.n - pj.n
      let curvatureForce := (-(pi.fluidParams.cohesion * pi.fluidParams.mass)) • nij
      kij • (cohesionForce + curvatureForce)
    else 0
  else 0

/-- `System::computeBoundaryFrictionForces` (system.cpp:260) as the
increment it adds to `f_adv`. -/
def computeBoundaryFrictionForces (s : State) (_i j : Nat) (pi : Particle) : Vec3 :=
  let bj := getB s.boundaries j
  let vij := pi.v
  let xij := pi.x - bj.x
  let dotVijRij := Vec3.dotProduct vij xij
  if dotVijRij < 0 then
    let epsilon : ℚ := 1/100
    let nu := s.boundaryParams.friction * s.fluidParams.smoothingRadius * s.fluidParams.soundSpeed /
      (2 * pi.rho)
    let Pij := -nu * (min dotVijRij 0 /
      (xij.lengthSquared + epsilon * s.fluidParams.smoothingRadius * s.fluidParams.smoothingRadius))
    (-(s.fluidParams.mass * bj.psi * Pij)) • s.fluidParams.monaghanKernel.monaghanGradient xij
  else 0

/-- `System::computeBoundaryAdhesionForces` (system.cpp:299) as the
increment it adds to `f_adv`. -/
def computeBoundaryAdhesionForces (s : State) (_i j : Nat) (pi : Particle) : Vec3 :=
  let bj := getB s.boundaries j
  let xij := pi.x - bj.x
  let l := s.sqrtFn xij.lengthSquared
  (-(s.boundaryParams.adhesion * s.fluidParams.mass * bj.psi *
      s.fluidParams.akinciKernel.adhesionValue l / l)) • xij

/-- `System::computeAdvectionForces` (system.cpp:164): reset `f_adv`,
accumulate viscosity and surface-tension increments over fluid neighbors,
friction and adhesion increments over boundary neighbors, then add
`gravity * mass`. -/
def computeAdvectionForces (s : State) (i : Nat) (pi : Particle) : Particle :=
  let f1 := pi.fluidNeighbor.foldl (fun acc j =>
    acc + computeViscosityForces s i j pi + computeSurfaceTensionForces s i j pi) 0
  let f2 := pi.boundaryNeighbor.foldl (fun acc j =>
    acc + computeBoundaryFrictionForces s i j pi + computeBoundaryAdhesionForces s i j pi) f1
  { pi with f_adv := f2 + s.fluidParams.mass • s.gravity }

/-- `System::predictVelocity` (system.cpp:181):
`v_adv = v + (dt / mass) * f_adv`. -/
def predictVelocity (s : State) (_i : Nat) (pi : Particle) : Particle :=
  { pi with v_adv := pi.v + (s.dt / s.fluidParams.mass) • pi.f_adv }

/-- `System::predictDensity` (system.cpp:187).  The boundary term uses
the hard-coded boundary velocity `(0.1, 0.1, 0.1)` of the source. -/
def predictDensity (s : State) (i : Nat) (pi : Particle) : Particle :=
  let fdrho := pi.fluidNeighbor.foldl (fun acc j =>
    if i ≠ j then
      let pj := getP s.particles j
      let gradient := s.fluidParams.monaghanKernel.monaghanGradient (pi.x - pj.x)
      acc + s.fluidParams.mass * Vec3.dotProduct (pi.v_adv - pj.v_adv) gradient
    else acc) 0
  let bdrho := pi.boundaryNeighbor.foldl (fun acc j =>
    let bj := getB s.boundaries j
    let vb : Vec3 := ⟨1/10, 1/10, 1/10⟩
    let gradient := s.fluidParams.monaghanKernel.monaghanGradient (pi.x - bj.x)
    acc + bj.psi * Vec3.dotProduct (pi.v_adv - vb) gradient) 0
  { pi with rho_adv := pi.rho + s.dt * (fdrho + bdrho) }

/-- `System::computeSumDijPj` (system.cpp:217). -/
def computeSumDijPj (s : State) (i : Nat) (pi : Particle) : Particle :=
  let acc := pi.fluidNeighbor.foldl (fun acc j =>
    if i ≠ j then
      let pj := getP s.particles j
      acc + ((-s.fluidParams.mass / pj.rho ^ 2) * pj.p_l) •
        s.fluidParams.monaghanKernel.monaghanGradient (pi.x - pj.x)
    else acc) 0
  { pi with sum_dij := (s.dt ^ 2) • acc }

/-- `System::computeDij` (system.cpp:308). -/
def computeDij (s : State) (i j : Nat) : Vec3 :=
  let pi := getP s.particles i
  let pj := getP s.particles j
  (-(s.dt * s.dt * s.fluidParams.mass) / pj.rho ^ 2) •
    s.fluidParams.monaghanKernel.monaghanGradient (pi.x - pj.x)

/-- `System::computeWCSPHPressure` (system.cpp:318):
`p = stiffness * (rho - restDensity)` with `stiffness = 1000`, no
clamping. -/
def computeWCSPHPressure (s : State) (_i : Nat) (pi : Particle) : Particle :=
  let stiffness : ℚ := 1000
  { pi with p := stiffness * (pi.rho - s.fluidParams.density) }

/-- `System::computeIISPHPressure` (system.cpp:325): recompute the
corrected density from `rho_adv` plus the fluid and boundary pressure
sums, relax the pressure estimate with `omega = 0.5` guarded by machine
epsilon on `aii`, clamp to non-negative, and store the clamped value in
both `p` and `p_l`. -/
def computeIISPHPressure (s : State) (i : Nat) (pi : Particle) : Particle :=
  let fsum := pi.fluidNeighbor.foldl (fun acc j =>
    if i ≠ j then
      let pj := getP s.particles j
      let dji := computeDij s j i
      let gradient_ij := s.fluidParams.monaghanKernel.monaghanGradient (pi.x - pj.x)
      let aux := pi.sum_dij - (pj.p_l • (pj.dii_fluid + pj.dii_boundary)) -
        (pj.sum_dij - pi.p_l • dji)
      acc + s.fluidParams.mass * Vec3.dotProduct aux gradient_ij
    else acc) 0
  let bsum := pi.boundaryNeighbor.foldl (fun acc j =>
    let bj := getB s.boundaries j
    acc + bj.psi * Vec3.dotProduct pi.sum_dij
      (s.fluidParams.monaghanKernel.monaghanGradient (pi.x - bj.x))) 0
  let omega : ℚ := 1/2
  let previousPl := pi.p_l
  let rhoCorr := pi.rho_adv + fsum + bsum
  let pl := if |pi.aii| > machineEps then
      (1 - omega) * previousPl + (omega / pi.aii) * (s.fluidParams.density - rhoCorr)
    else 0
  let pNew := max pl 0
  { pi with rho_corr := rhoCorr + pi.aii * previousPl, p := pNew, p_l := pNew }

/-- `System::computeFluidPressureForce` (system.cpp:382) as the increment
it adds to `f_p` (zero for the self pair). -/
def computeFluidPressureForce (s : State) (i j : Nat) (pi : Particle) : Vec3 :=
  let pj := getP s.particles j
  let gradient := ((1 : ℚ)/2) • (pi.fluidParams.monaghanKernel.monaghanGradient (pi.x - pj.x) +
    pj.fluidParams.monaghanKernel.monaghanGradient (pi.x - pj.x))
  if i ≠ j then
    (-(pi.fluidParams.mass * pj.fluidParams.mass * (pi.p / pi.rho ^ 2 + pj.p / pj.rho ^ 2))) • gradient
  else 0

/-- `System::computeBoundaryPressureForce` (system.cpp:396) as the
increment it adds to `f_p`. -/
def computeBoundaryPressureForce (s : State) (_i j : Nat) (pi : Particle) : Vec3 :=
  let bj := getB s.boundaries j
  (-(pi.fluidParams.mass * bj.psi * (pi.p / pi.rho ^ 2))) •
    pi.fluidParams.monaghanKernel.monaghanGradient (pi.x - bj.x)

/-- `System::computePressureForce` (system.cpp:362). -/
def computePressureForce (s : State) (i : Nat) (pi : Particle) : Particle :=
  let f1 := pi.fluidNeighbor.foldl (fun acc j => acc + computeFluidPressureForce s i j pi) 0
  { pi with f_p := pi.boundaryNeighbor.foldl (fun acc j => acc + computeBoundaryPressureForce s i j pi) f1 }

/-- `System::initializePressure` (system.cpp:405): `p_l = 0.5 * p`. -/
def initializePressure (_s : State) (_i : Nat) (pi : Particle) : Particle :=
  { pi with p_l := ((1 : ℚ)/2) * pi.p }

/-- `System::computeError` (system.cpp:411): the mean of `rho_corr` over
all particles. -/
def computeError (s : State) : State :=
  { s with averageDensity :=
      (s.particles.foldl (fun acc pj => acc + pj.rho_corr) 0) / (s.particles.length : ℚ) }

/-- `System::computeDii` (system.cpp:450). -/
def computeDii (s : State) (i : Nat) (pi : Particle) : Particle :=
  let df := pi.fluidNeighbor.foldl (fun acc j =>
    if i ≠ j then
      acc + (-(s.dt * s.dt) * s.fluidParams.mass / pi.rho ^ 2) •
        s.fluidParams.monaghanKernel.monaghanGradient (pi.x - (getP s.particles j).x)
    else acc) 0
  let db := pi.boundaryNeighbor.foldl (fun acc j =>
    let bj := getB s.boundaries j
    acc + (-(s.dt * s.dt) * bj.psi / pi.rho ^ 2) •
      s.fluidParams.monaghanKernel.monaghanGradient (pi.x - bj.x)) 0
  { pi with dii_fluid := df, dii_boundary := db }

/-- `System::computeAii` (system.cpp:474). -/
def computeAii (s : State) (i : Nat) (pi : Particle) : Particle :=
  let a1 := pi.fluidNeighbor.foldl (fun acc j =>
    if i ≠ j then
      let pj := getP s.particles j
      let dji := computeDij s j i
      let gradient_ij := s.fluidParams.monaghanKernel.monaghanGradient (pi.x - pj.x)
      acc + s.fluidParams.mass * Vec3.dotProduct ((pi.dii_fluid + pi.dii_boundary) - dji) gradient_ij
    else acc) 0
  let a2 := pi.boundaryNeighbor.foldl (fun acc j =>
    let bj := getB s.boundaries j
    let gradient_ij := s.fluidParams.monaghanKernel.monaghanGradient (pi.x - bj.x)
    acc + bj.psi * Vec3.dotProduct (pi.dii_fluid + pi.dii_boundary) gradient_ij) a1
  { pi with aii := a2 }

/-- `System::getNearestNeighbor(i, radius)` (system.cpp:497): clear both
neighbor lists, then for every candidate cell of the 27-block include a
boundary or fluid index when its squared distance to particle `i` is
strictly below `radius` squared. -/
def getNearestNeighbor (s : State) (radius : ℚ) (pi : Particle) : Particle :=
  let neighborCell := s.gridInfo.get27Neighbors pi.x radius
  let bn := neighborCell.foldl (fun acc c =>
    acc ++ (s.boundaryGrid c).filter (fun j =>
      ((getB s.boundaries j).x - pi.x).lengthSquared < radius * radius)) []
  let fn := neighborCell.foldl (fun acc c =>
    acc ++ (s.fluidGrid c).filter (fun j =>
      ((getP s.particles j).x - pi.x).lengthSquared < radius * radius)) []
  { pi with fluidNeighbor := fn, boundaryNeighbor := bn }

/-- `System::getNearestNeighbor(neighbor, grid, x)` (system.cpp:530): all
bucket entries of the 27-block around `x`, with no distance filter. -/
def getNearestNeighborCells (s : State) (grid : Buckets) (x : Vec3) : List Nat :=
  (s.gridInfo.get27Neighbors x s.gridInfo.spacing).foldl (fun acc c => acc ++ grid c) []

/-- `System::computeBoundaryVolume` (system.cpp:544): set each boundary's
`psi` to `restDensity / sum of kernel values over its boundary
neighbors`. -/
def computeBoundaryVolume (s : State) : State :=
  { s with boundaries := (List.range s.boundaries.length).map (fun i =>
      let bi := getB s.boundaries i
      let neighbors := getNearestNeighborCells s s.boundaryGrid bi.x
      let densityNumber := neighbors.foldl (fun acc j =>
        acc + s.fluidParams.monaghanKernel.monaghanValue (bi.x - (getB s.boundaries j).x)) 0
      { bi with psi := s.fluidParams.density / densityNumber }) }

/-- Modelled from the spec: `mortonNumber` (in a utils header not under
`src/`) interleaves the bits of the three cell coordinates into a Morton
z-index.  `spreadBits` places bit `k` of its argument at bit `3 * k`. -/
def spreadBits (n : Nat) : Nat :=
  if h : n = 0 then 0 else n % 2 + 8 * spreadBits (n / 2)
termination_by n
decreasing_by exact Nat.div_lt_self (Nat.pos_of_ne_zero h) (by norm_num)

/-- Modelled from the spec: the Morton z-index of a grid cell (negative
coordinates, which only occur for particles outside the grid, are
clamped to zero by `Int.toNat`). -/
def mortonNumber (c : Cell) : Nat :=
  spreadBits c.1.toNat + 2 * spreadBits c.2.1.toNat + 4 * spreadBits c.2.2.toNat

/-- The sort key of `System::mortonSort`: the Morton z-index of the
particle's grid cell. -/
def zindex (g : GridUtility) (p : Particle) : Nat := mortonNumber (g.worldToGrid p.x)

/-- `System::mortonSort` (system.cpp:779): pair each index with its z-index,
sort the pairs by z-index, and rebuild the particle array in that order
(`std::sort` is modelled by `mergeSort`, which shares its contract:
a permutation of the input, sorted by the comparator). -/
def mortonSort (s : State) : State :=
  let particleZindex := (List.range s.particles.length).map
    (fun i => (i, zindex s.gridInfo (getP s.particles i)))
  let sorted := particleZindex.mergeSort (fun a b => decide (a.2 ≤ b.2))
  { s with particles := sorted.map (fun pr => getP s.particles pr.1) }

/-- Rebuild the fluid buckets (`System::prepareGrid`, system.cpp:823):
clear every bucket, then push each particle index into the bucket of its
cell when that cell is inside the grid. -/
def buildGrid (g : GridUtility) (positions : List Vec3) : Buckets :=
  (List.range positions.length).foldl (fun acc i =>
    let c := g.worldToGrid (positions.getD i 0)
    if g.isInsideCell c then pushBucket acc c i else acc) emptyBuckets

/-- The sort-independent tail of `System::prepareGrid`: rebuild the
fluid buckets, then run the neighbor search for every particle with
lookup radius `2 * smoothingRadius`. -/
def prepareGridCore (s0 : State) : State :=
  stageMap { s0 with fluidGrid := buildGrid s0.gridInfo (s0.particles.map Particle.x) }
    (fun s _ pi => getNearestNeighbor s (2 * pi.fluidParams.smoothingRadius) pi)

/-- `System::prepareGrid` (system.cpp:818): Morton-sort every 100 steps,
rebuild the fluid buckets, then run the neighbor search. -/
def prepareGrid (s : State) : State :=
  prepareGridCore (if s.countTime % 100 = 0 then mortonSort s else s)

/-- `System::predictAdvection` (system.cpp:840): four barrier-separated
parallel stages. -/
def predictAdvection (s : State) : State :=
  let s1 := stageMap s computeDensity
  let s2 := stageMap s1 computeNormal
  let s3 := stageMap s2 (fun s i pi => computeDii s i (predictVelocity s i (computeAdvectionForces s i pi)))
  stageMap s3 (fun s i pi => computeAii s i (initializePressure s i (predictDensity s i pi)))

/-- The loop guard of `System::pressureSolve` (system.cpp:879):
continue while the mean corrected density exceeds the rest density by
more than the tolerance, or fewer than the configured minimum number of
iterations have run. -/
def pressureSolveCond (s : State) (l : Nat) : Bool :=
  decide (s.averageDensity - s.fluidParams.density > s.maxDensityError) ||
  decide (l < s.maxPressureSolveIterationNb)

/-- One iteration of the `System::pressureSolve` loop body: the
`computeSumDijPj` stage, the pressure-update stage (the source calls
`computeWCSPHPressure`; the `computeIISPHPressure` call is commented
out), then `computeError`. -/
def pressureSolveBody (s : State) : State :=
  computeError (stageMap (stageMap s computeSumDijPj) computeWCSPHPressure)

/-- The `while` loop of `System::pressureSolve`, with explicit fuel:
`none` models non-termination within the given fuel; `some (s, l)` is
the final state together with the number of iterations executed. -/
def pressureSolveLoop : Nat → State → Nat → Option (State × Nat)
  | 0, _, _ => none
  | fuel + 1, s, l =>
    if pressureSolveCond s l then pressureSolveLoop fuel (pressureSolveBody s) (l + 1)
    else some (s, l)

/-- `System::pressureSolve` (system.cpp:875): reset the mean density
accumulator, then run the loop. -/
def pressureSolve (fuel : Nat) (s : State) : Option (State × Nat) :=
  pressureSolveLoop fuel { s with averageDensity := 0 } 0

/-- The per-particle velocity/position update of `System::integration`
(system.cpp:918): `v = v_adv + (dt / mass) * f_p` first, then
`x += dt * v` with the same new velocity. -/
def integrationKernel (u : State) (pi : Particle) : Particle :=
  let v := pi.v_adv + (u.dt / pi.fluidParams.mass) • pi.f_p
  { pi with v := v, x := pi.x + u.dt • v }

/-- `System::integration` (system.cpp:905): bump the step counter and the
time, run the pressure-force stage, then the velocity/position stage. -/
def integration (s : State) : State :=
  let s0 := { s with countTime := s.countTime + 1, time := s.time + s.dt }
  let s1 := stageMap s0 computePressureForce
  stageMap s1 (fun u _ pi => integrationKernel u pi)

/-- `System::applySources` (system.cpp:939): append the particles emitted
by every registered source at the current time. -/
def applySources (s : State) : State :=
  s.pSources.foldl (fun st src => { st with particles := st.particles ++ src.apply st.time }) s

/-- `System::applySinks` (system.cpp:952): an empty body — the identity. -/
def applySinks (s : State) : State := s

/-- `System::computeMeanDensity` (system.cpp:557). -/
def computeMeanDensity (s : State) : State :=
  { s with meanDensity :=
      (s.particles.foldl (fun acc pj => acc + pj.rho) 0) / (s.particles.length : ℚ) }

/-- `System::computeVolume` (system.cpp:572). -/
def computeVolume (s : State) : State :=
  { s with realVolume := s.particles.foldl (fun acc pj => acc + pj.fluidParams.mass / pj.rho) 0 }

/-- `System::computeDensityFluctuation` (system.cpp:567). -/
def computeDensityFluctuation (s : State) : State :=
  { s with densityFluctuation := s.meanDensity - s.fluidParams.density }

/-- `System::computeStats` (system.cpp:956). -/
def computeStats (s : State) : State :=
  computeDensityFluctuation (computeVolume (computeMeanDensity s))

/-- `System::computeSimulationStep` (system.cpp:926): the fixed stage
sequence; `none` when the pressure solve does not terminate within the
given fuel. -/
def computeSimulationStep (fuel : Nat) (s : State) : Option State :=
  match pressureSolve fuel (predictAdvection (prepareGrid s)) with
  | none => none
  | some (s3, _) => some (computeStats (applySinks (applySources (integration s3))))

/-- Iterated simulation steps (the external driver loop): `none` as soon
as one step's pressure solve runs out of fuel. -/
def iterateSteps (fuel : Nat) : Nat → State → Option State
  | 0, s => some s
  | n + 1, s =>
    match computeSimulationStep fuel s with
    | none => none
    | some s' => iterateSteps fuel n s'

/-- The grid-setup part of `System::init`: fill the boundary buckets
from the boundary positions and size the (empty) fluid buckets. -/
def initGrids (s0 : State) : State :=
  { s0 with boundaryGrid := buildGrid s0.gridInfo (s0.boundaries.map Boundary.x),
            fluidGrid := emptyBuckets }

/-- `System::init` (system.cpp:633): Morton sort, build the boundary
buckets, precompute boundary volumes, run one grid/neighbor pass, and
flag every particle as surface. -/
def init (s : State) : State :=
  let s2 := prepareGrid (computeBoundaryVolume (initGrids (mortonSort s)))
  { s2 with particles := s2.particles.map (fun q => { q with isSurface := true }) }

/-! ### Algebraic structure on `Vec3` and basic helper lemmas -/

@[ext]
theorem Vec3.ext' {a b : Vec3} (hx : a.x = b.x) (hy : a.y = b.y) (hz : a.z = b.z) : a = b := by
  cases a; cases b; simp_all

@[simp] theorem Vec3.add_x (a b : Vec3) : (a + b).x = a.x + b.x := rfl

@[simp] theorem Vec3.add_y (a b : Vec3) : (a + b).y = a.y + b.y := rfl

@[simp] theorem Vec3.add_z (a b : Vec3) : (a + b).z = a.z + b.z := rfl

@[simp] theorem Vec3.sub_x (a b : Vec3) : (a - b).x = a.x - b.x := rfl

@[simp] theorem Vec3.sub_y (a b : Vec3) : (a - b).y = a.y - b.y := rfl

@[simp] theorem Vec3.sub_z (a b : Vec3) : (a - b).z = a.z - b.z := rfl

@[simp] theorem Vec3.neg_x (a : Vec3) : (-a).x = -a.x := rfl

@[simp] theorem Vec3.neg_y (a : Vec3) : (-a).y = -a.y := rfl

@[simp] theorem Vec3.neg_z (a : Vec3) : (-a).z = -a.z := rfl

@[simp] theorem Vec3.smul_x (c : ℚ) (a : Vec3) : (c • a).x = c * a.x := rfl

@[simp] theorem Vec3.smul_y (c : ℚ) (a : Vec3) : (c • a).y = c * a.y := rfl

@[simp] theorem Vec3.smul_z (c : ℚ) (a : Vec3) : (c • a).z = c * a.z := rfl

@[simp] theorem Vec3.zero_x : (0 : Vec3).x = 0 := rfl

@[simp] theorem Vec3.zero_y : (0 : Vec3).y = 0 := rfl

@[simp] theorem Vec3.zero_z : (0 : Vec3).z = 0 := rfl

instance : AddCommGroup Vec3 where
  add_assoc a b c := by ext <;> simp <;> ring
  zero_add a := by ext <;> simp
  add_zero a := by ext <;> simp
  add_comm a b := by ext <;> simp <;> ring
  neg_add_cancel a := by ext <;> simp
  sub_eq_add_neg a b := by ext <;> simp <;> ring
  nsmul n a := ⟨n * a.x, n * a.y, n * a.z⟩
  nsmul_zero a := by ext <;> simp
  nsmul_succ n a := by ext <;> simp <;> try ring
  zsmul n a := ⟨n * a.x, n * a.y, n * a.z⟩
  zsmul_zero' a := by ext <;> simp
  zsmul_succ' n a := by ext <;> simp <;> try push_cast <;> ring
  zsmul_neg' n a := by ext <;> simp <;> try push_cast <;> ring

instance : Module ℚ Vec3 where
  one_smul a := by ext <;> simp
  mul_smul c d a := by ext <;> simp <;> ring
  smul_zero c := by ext <;> simp
  smul_add c a b := by ext <;> simp <;> ring
  add_smul c d a := by ext <;> simp <;> ring
  zero_smul a := by ext <;> simp

@[simp] theorem Vec3.dot_zero_left (a : Vec3) : Vec3.dotProduct 0 a = 0 := by
  simp [Vec3.dotProduct]

@[simp] theorem Vec3.dot_zero_right (a : Vec3) : Vec3.dotProduct a 0 = 0 := by
  simp [Vec3.dotProduct]

theorem Vec3.lengthSquared_neg (a : Vec3) : (-a).lengthSquared = a.lengthSquared := by
  simp [Vec3.lengthSquared, Vec3.dotProduct]

theorem Vec3.lengthSquared_sub_comm (a b : Vec3) :
    (a - b).lengthSquared = (b - a).lengthSquared := by
  simp only [Vec3.lengthSquared, Vec3.dotProduct, Vec3.sub_x, Vec3.sub_y, Vec3.sub_z]
  ring

theorem Vec3.lengthSquared_nonneg (a : Vec3) : 0 ≤ a.lengthSquared := by
  have hx := mul_self_nonneg a.x
  have hy := mul_self_nonneg a.y
  have hz := mul_self_nonneg a.z
  simp only [Vec3.lengthSquared, Vec3.dotProduct]
  linarith

theorem Vec3.comp_sq_le_lengthSquared_x (a : Vec3) : a.x * a.x ≤ a.lengthSquared := by
  have hy := mul_self_nonneg a.y
  have hz := mul_self_nonneg a.z
  simp only [Vec3.lengthSquared, Vec3.dotProduct]
  linarith

theorem Vec3.comp_sq_le_lengthSquared_y (a : Vec3) : a.y * a.y ≤ a.lengthSquared := by
  have hx := mul_self_nonneg a.x
  have hz := mul_self_nonneg a.z
  simp only [Vec3.lengthSquared, Vec3.dotProduct]
  linarith

theorem Vec3.comp_sq_le_lengthSquared_z (a : Vec3) : a.z * a.z ≤ a.lengthSquared := by
  have hx := mul_self_nonneg a.x
  have hy := mul_self_nonneg a.y
  simp only [Vec3.lengthSquared, Vec3.dotProduct]
  linarith

/-! ### List access helpers -/

theorem getD_map_range {α : Type} (f : Nat → α) (n i : Nat) (d : α) (h : i < n) :
    ((List.range n).map f).getD i d = f i := by
  simp [List.getD_eq_getElem?_getD, List.getElem?_map, List.getElem?_range h]

theorem map_getP_range {α : Type} (h : Particle → α) (ps : List Particle) :
    (List.range ps.length).map (fun i => h (getP ps i)) = ps.map h := by
  induction ps with
  | nil => simp
  | cons p tl ih =>
    simp only [List.length_cons, List.range_succ_eq_map, List.map_cons, List.map_map]
    refine congrArg₂ _ rfl ?_
    have : (fun i => h (getP (p :: tl) i)) ∘ Nat.succ = fun i => h (getP tl i) := by
      funext i; simp [getP]
    rw [this, ih]

theorem length_stageMap (s : State) (f : State → Nat → Particle → Particle) :
    (stageMap s f).particles.length = s.particles.length := by
  simp [stageMap]

theorem getP_stageMap (s : State) (f : State → Nat → Particle → Particle) (i : Nat)
    (h : i < s.particles.length) :
    getP (stageMap s f).particles i = f s i (getP s.particles i) := by
  exact getD_map_range (fun i => f s i (getP s.particles i)) _ i defaultParticle h

theorem map_stageMap {α : Type} (s : State) (f : State → Nat → Particle → Particle)
    (h : Particle → α) (hf : ∀ i pi, h (f s i pi) = h pi) :
    (stageMap s f).particles.map h = s.particles.map h := by
  simp only [stageMap, List.map_map]
  have : (h ∘ fun i => f s i (getP s.particles i)) = fun i => h (getP s.particles i) := by
    funext i; simp [hf]
  rw [this, map_getP_range]

theorem foldl_add_eq_sum {M : Type} [AddCommMonoid M] {α : Type} (g : α → M) (l : List α)
    (init : M) : l.foldl (fun acc j => acc + g j) init = init + (l.map g).sum := by
  induction l generalizing init with
  | nil => simp
  | cons a tl ih => simp [ih, add_assoc]

theorem foldl_eq_init {M α : Type} (f : M → α → M) (l : List α) (init : M)
    (h : ∀ j ∈ l, ∀ acc, f acc j = acc) : l.foldl f init = init := by
  induction l generalizing init with
  | nil => rfl
  | cons a tl ih =>
    rw [List.foldl_cons, h a (by simp), ih]
    intro j hj acc
    exact h j (by simp [hj]) acc

theorem mem_foldl_append {α β : Type} (f : β → List α) (l : List β) (init : List α) (a : α) :
    a ∈ l.foldl (fun acc c => acc ++ f c) init ↔ a ∈ init ∨ ∃ c ∈ l, a ∈ f c := by
  induction l generalizing init with
  | nil => simp
  | cons b tl ih =>
    rw [List.foldl_cons, ih]
    simp only [List.mem_append, List.mem_cons]
    constructor
    · rintro (⟨h | h⟩ | ⟨c, hc, h⟩)
      · exact Or.inl h
      · exact Or.inr ⟨b, Or.inl rfl, h⟩
      · exact Or.inr ⟨c, Or.inr hc, h⟩
    · rintro (h | ⟨c, hc | hc, h⟩)
      · exact Or.inl (Or.inl h)
      · exact Or.inl (Or.inr (hc ▸ h))
      · exact Or.inr ⟨c, hc, h⟩

/-! ### A small concrete scene used by the witnesses -/

/-- Constant-value kernel used by witness states. -/
def witKernel : MonaghanKernel := ⟨fun _ => 2, fun _ => ⟨1, 0, 0⟩⟩

/-- Fluid parameters of the witness states. -/
def witFluidParams : FluidParams :=
  { mass := 3, density := 1, viscosity := 0, cohesion := 0, smoothingRadius := 1/2,
    soundSpeed := 1, monaghanKernel := witKernel, akinciKernel := zeroAkinci }

/-- A witness particle at a grid-interior position. -/
def witParticle : Particle :=
  { defaultParticle with x := ⟨2, 2, 2⟩, v := ⟨1, 2, 3⟩, fluidParams := witFluidParams,
                         fluidNeighbor := [0], boundaryNeighbor := [] }

/-- A one-particle witness state over a 4×4×4 grid of unit cells. -/
def witState : State :=
  { particles := [witParticle], boundaries := [], fluidParams := witFluidParams,
    boundaryParams := ⟨0, 0⟩, gravity := ⟨0, -981/100, 0⟩, dt := 1/100, time := 0,
    countTime := 1, maxPressureSolveIterationNb := 2, maxDensityError := 1,
    averageDensity := 0, meanDensity := 0, densityFluctuation := 0, realVolume := 0,
    gridInfo := ⟨0, 4, 4, 4, 1⟩, fluidGrid := emptyBuckets, boundaryGrid := emptyBuckets,
    pSources := [], sqrtFn := fun _ => 0 }

/-- The witness particle with its surface flag raised (same position,
normal and neighbor lists as `witParticle`). -/
def witParticleSurf : Particle := { witParticle with isSurface := true }

/-- `witState` with the surface flag raised on its single particle —
identical geometry, differing only in the stored flag. -/
def witStateSurf : State := { witState with particles := [witParticleSurf] }

/-- A second witness particle a tenth of a cell away from `witParticle`
(same cell, squared distance `1/100`, inside the interaction radius). -/
def witParticleB : Particle := { witParticle with x := ⟨21/10, 2, 2⟩ }

/-- `witState` with two particles in the same grid cell, used to witness
neighbor-search facts. -/
def witState2 : State := { witState with particles := [witParticle, witParticleB] }

/-! ### C7 — density formula -/

/-- C7: `computeDensity` sets particle `i`'s density to exactly the sum
over its fluid-neighbor list of the neighbor's mass times the
interpolation-kernel value at `xi - xj`, plus the sum over its
boundary-neighbor list of the boundary's `psi` times the kernel value at
`xi - xj`. -/
theorem computeDensity_is_neighbor_sum (s : State) (i : Nat) (h : i < s.particles.length) :
    (getP (stageMap s computeDensity).particles i).rho =
      ((getP s.particles i).fluidNeighbor.map (fun j =>
        (getP s.particles j).fluidParams.mass *
        (getP s.particles j).fluidParams.monaghanKernel.monaghanValue
          ((getP s.particles i).x - (getP s.particles j).x))).sum +
      ((getP s.particles i).boundaryNeighbor.map (fun j =>
        (getP s.particles i).fluidParams.monaghanKernel.monaghanValue
          ((getP s.particles i).x - (getB s.boundaries j).x) * (getB s.boundaries j).psi)).sum := by
  rw [getP_stageMap _ _ _ h]
  simp only [computeDensity]
  rw [foldl_add_eq_sum, foldl_add_eq_sum]
  ring

/-- Witness for C7 at the concrete one-particle scene: the density is
the single self term `mass * W(0) = 3 * 2 = 6`. -/
theorem computeDensity_is_neighbor_sum_witness :
    (getP (stageMap witState computeDensity).particles 0).rho = 6 :=
  (computeDensity_is_neighbor_sum witState 0 (by decide)).trans
    (by norm_num [witState, witParticle, witFluidParams, witKernel, getP, getB])

/-! ### C3 — IISPH pressure update -/

/-- C3: `computeIISPHPressure` computes the relaxed pressure estimate
`(1 - omega) * p_old + (omega / aii) * (restDensity - rho_corr)` with
`omega = 1/2`, clamps it to non-negative (storing the clamped value in
both `p` and `p_l`), and sets the estimate to `0` instead of dividing
when `|aii|` is within machine epsilon of zero.  Here `rho_corr` is the
corrected density the function itself computes (recoverable from the
stored field as `rho_corr - aii * p_old`). -/
theorem computeIISPHPressure_update (s : State) (i : Nat) (pi : Particle) :
    (machineEps < |pi.aii| →
      (computeIISPHPressure s i pi).p =
        max ((1 - (1 : ℚ)/2) * pi.p_l +
          (((1 : ℚ)/2) / pi.aii) *
            (s.fluidParams.density - ((computeIISPHPressure s i pi).rho_corr - pi.aii * pi.p_l))) 0) ∧
    (¬ machineEps < |pi.aii| → (computeIISPHPressure s i pi).p = 0) ∧
    (computeIISPHPressure s i pi).p_l = (computeIISPHPressure s i pi).p ∧
    0 ≤ (computeIISPHPressure s i pi).p := by
  refine ⟨fun hgt => ?_, fun hle => ?_, ?_, ?_⟩
  · simp only [computeIISPHPressure]
    rw [if_pos hgt]
    congr 1
    ring
  · simp only [computeIISPHPressure]
    rw [if_neg hle]
    simp
  · simp [computeIISPHPressure]
  · simp only [computeIISPHPressure]
    exact le_max_right _ _

/-- A particle with `aii = 2`, `p_l = 4`, `rho_adv = 5` and no
neighbors, for the C3 witness. -/
def witIISPHParticle : Particle :=
  { x := 0, v := 0, v_adv := 0, rho := 0, rho_adv := 5, rho_corr := 0, p := 0, p_l := 4,
    f_adv := 0, f_p := 0, n := 0, dii_fluid := 0, dii_boundary := 0, sum_dij := 0,
    aii := 2, isSurface := false, fluidNeighbor := [], boundaryNeighbor := [],
    fluidParams := witFluidParams }

/-- Witness for C3: at a particle with `aii = 2`, `p_l = 4`,
`rho_adv = 5`, no neighbors and rest density `1`, the update gives
`max ((1/2)*4 + (1/4)*(1 - 5)) 0 = max 1 0 = 1`. -/
theorem computeIISPHPressure_update_witness :
    (computeIISPHPressure witState 0 witIISPHParticle).p = 1 := by
  have h := (computeIISPHPressure_update witState 0 witIISPHParticle).1
    (by norm_num [machineEps, witIISPHParticle])
  rw [h]
  norm_num [computeIISPHPressure, witIISPHParticle, witState, witFluidParams, machineEps]

/-! ### C10 — Morton sort -/

/-- The index/z-index pair list built by `mortonSort`. -/
def mortonPairs (s : State) : List (Nat × Nat) :=
  (List.range s.particles.length).map (fun i => (i, zindex s.gridInfo (getP s.particles i)))

theorem mortonSort_particles_eq (s : State) :
    (mortonSort s).particles =
      ((mortonPairs s).mergeSort (fun a b => decide (a.2 ≤ b.2))).map
        (fun pr => getP s.particles pr.1) := rfl

theorem mortonPairs_map_getP (s : State) :
    (mortonPairs s).map (fun pr => getP s.particles pr.1) = s.particles := by
  unfold mortonPairs
  rw [List.map_map]
  have : ((fun pr => getP s.particles pr.1) ∘
      fun i => (i, zindex s.gridInfo (getP s.particles i))) = fun i => getP s.particles i := rfl
  rw [this]
  have h2 := map_getP_range (fun q => q) s.particles
  simpa using h2

/-- `mortonSort` permutes the particle list. -/
theorem mortonSort_perm (s : State) : (mortonSort s).particles.Perm s.particles := by
  rw [mortonSort_particles_eq]
  have h := (List.mergeSort_perm (mortonPairs s) (fun a b => decide (a.2 ≤ b.2))).map
    (fun pr => getP s.particles pr.1)
  rw [mortonPairs_map_getP] at h
  exact h

theorem mortonSort_length (s : State) :
    (mortonSort s).particles.length = s.particles.length :=
  (mortonSort_perm s).length_eq

/-- Every pair in the sorted pair list records the z-index of the
particle it points to. -/
theorem mortonPairs_snd (s : State) (pr : Nat × Nat)
    (h : pr ∈ (mortonPairs s).mergeSort (fun a b => decide (a.2 ≤ b.2))) :
    pr.2 = zindex s.gridInfo (getP s.particles pr.1) := by
  have hmem : pr ∈ mortonPairs s :=
    (List.mergeSort_perm (mortonPairs s) _).mem_iff.mp h
  unfold mortonPairs at hmem
  obtain ⟨i, _, rfl⟩ := List.mem_map.mp hmem
  rfl

/-- `mortonSort` orders the particles by non-decreasing Morton z-index
of their grid cells. -/
theorem mortonSort_sorted (s : State) :
    (mortonSort s).particles.Pairwise
      (fun a b => zindex s.gridInfo a ≤ zindex s.gridInfo b) := by
  rw [mortonSort_particles_eq, List.pairwise_map]
  have hs := @List.sorted_mergeSort (Nat × Nat) (fun a b => decide (a.2 ≤ b.2))
    (fun a b c hab hbc => by
      simp only [decide_eq_true_eq] at *
      omega)
    (fun a b => by
      simp only [Bool.or_eq_true, decide_eq_true_eq]
      omega)
    (mortonPairs s)
  refine hs.imp_of_mem ?_
  intro a b ha hb hab
  have h1 := mortonPairs_snd s a ha
  have h2 := mortonPairs_snd s b hb
  simp only [decide_eq_true_eq] at hab
  rw [h1, h2] at hab
  exact hab

/-- C10: `mortonSort` rearranges the particle array into a permutation
of its previous contents, ordered by non-decreasing Morton z-index of
the particles' grid cells. -/
theorem mortonSort_perm_and_sorted (s : State) :
    (mortonSort s).particles.Perm s.particles ∧
    (mortonSort s).particles.Pairwise
      (fun a b => zindex s.gridInfo a ≤ zindex s.gridInfo b) :=
  ⟨mortonSort_perm s, mortonSort_sorted s⟩

/-! ### Pressure-solve loop: preservation lemmas -/

theorem pressureSolveBody_particles (s : State) (i : Nat) (h : i < s.particles.length) :
    getP (pressureSolveBody s).particles i =
      computeWCSPHPressure (stageMap s computeSumDijPj) i
        (computeSumDijPj s i (getP s.particles i)) := by
  have hlen : i < (stageMap s computeSumDijPj).particles.length := by
    rw [length_stageMap]; exact h
  show getP (stageMap (stageMap s computeSumDijPj) computeWCSPHPressure).particles i = _
  rw [getP_stageMap _ _ _ hlen, getP_stageMap _ _ _ h]

theorem pressureSolveBody_fluidParams (s : State) :
    (pressureSolveBody s).fluidParams = s.fluidParams := rfl

theorem pressureSolveBody_maxDensityError (s : State) :
    (pressureSolveBody s).maxDensityError = s.maxDensityError := rfl

theorem pressureSolveBody_maxIter (s : State) :
    (pressureSolveBody s).maxPressureSolveIterationNb = s.maxPressureSolveIterationNb := rfl

theorem pressureSolveBody_length (s : State) :
    (pressureSolveBody s).particles.length = s.particles.length := by
  show (stageMap (stageMap s computeSumDijPj) computeWCSPHPressure).particles.length = _
  rw [length_stageMap, length_stageMap]

theorem pressureSolveBody_map_rho_corr (s : State) :
    (pressureSolveBody s).particles.map (fun q => q.rho_corr) =
      s.particles.map (fun q => q.rho_corr) := by
  show ((stageMap (stageMap s computeSumDijPj) computeWCSPHPressure).particles.map _) = _
  rw [map_stageMap _ _ _ (fun i pi => rfl), map_stageMap _ _ _ (fun i pi => rfl)]

theorem pressureSolveBody_averageDensity (s : State) :
    (pressureSolveBody s).averageDensity =
      (s.particles.map (fun q => q.rho_corr)).sum / (s.particles.length : ℚ) := by
  show ((stageMap (stageMap s computeSumDijPj) computeWCSPHPressure).particles.foldl
      (fun acc pj => acc + pj.rho_corr) 0) /
      (((stageMap (stageMap s computeSumDijPj) computeWCSPHPressure).particles.length : ℚ)) = _
  rw [foldl_add_eq_sum, length_stageMap, length_stageMap]
  rw [show ((stageMap (stageMap s computeSumDijPj) computeWCSPHPressure).particles.map
      (fun q => q.rho_corr)) = s.particles.map (fun q => q.rho_corr) from
    pressureSolveBody_map_rho_corr s]
  rw [zero_add]

theorem iterate_body_fluidParams (s : State) (k : Nat) :
    ((pressureSolveBody^[k]) s).fluidParams = s.fluidParams := by
  induction k with
  | zero => rfl
  | succ k ih => rw [Function.iterate_succ_apply', pressureSolveBody_fluidParams, ih]

theorem iterate_body_maxDensityError (s : State) (k : Nat) :
    ((pressureSolveBody^[k]) s).maxDensityError = s.maxDensityError := by
  induction k with
  | zero => rfl
  | succ k ih => rw [Function.iterate_succ_apply', pressureSolveBody_maxDensityError, ih]

theorem iterate_body_maxIter (s : State) (k : Nat) :
    ((pressureSolveBody^[k]) s).maxPressureSolveIterationNb = s.maxPressureSolveIterationNb := by
  induction k with
  | zero => rfl
  | succ k ih => rw [Function.iterate_succ_apply', pressureSolveBody_maxIter, ih]

theorem iterate_body_length (s : State) (k : Nat) :
    ((pressureSolveBody^[k]) s).particles.length = s.particles.length := by
  induction k with
  | zero => rfl
  | succ k ih => rw [Function.iterate_succ_apply', pressureSolveBody_length, ih]

theorem iterate_body_map_rho_corr (s : State) (k : Nat) :
    ((pressureSolveBody^[k]) s).particles.map (fun q => q.rho_corr) =
      s.particles.map (fun q => q.rho_corr) := by
  induction k with
  | zero => rfl
  | succ k ih => rw [Function.iterate_succ_apply', pressureSolveBody_map_rho_corr, ih]

/-! ### C1 — pressure sign after solver iterations -/

/-- C1 (counterexample): on a one-particle state with density `0` and
rest density `1`, the first iteration of the pressure-solve loop (whose
guard holds, and whose body calls the unclamped `computeWCSPHPressure`)
leaves the particle with pressure `1000 * (0 - 1) = -1000 < 0`. -/
theorem pressureSolve_negative_pressure_cex :
    pressureSolveCond { witState with averageDensity := 0 } 0 = true ∧
    (getP (pressureSolveBody { witState with averageDensity := 0 }).particles 0).p = -1000 ∧
    ((-1000 : ℚ) < 0) := by
  refine ⟨?_, ?_, by norm_num⟩
  · norm_num [pressureSolveCond, witState]
  · norm_num [pressureSolveBody, computeError, stageMap, computeSumDijPj, computeWCSPHPressure,
      getP, witState, witParticle, witFluidParams, witKernel, defaultParticle, List.range_succ]

theorem computeWCSPHPressure_p (u : State) (i : Nat) (q : Particle) :
    (computeWCSPHPressure u i q).p = 1000 * (q.rho - u.fluidParams.density) := rfl

theorem computeWCSPHPressure_rho (u : State) (i : Nat) (q : Particle) :
    (computeWCSPHPressure u i q).rho = q.rho := rfl

theorem stageMap_fluidParams (s : State) (f : State → Nat → Particle → Particle) :
    (stageMap s f).fluidParams = s.fluidParams := rfl

/-- C1 (amended): after any iteration of the pressure-solve loop, every
particle's pressure equals `1000 * (rho - restDensity)` — the active
WCSPH update, which is not clamped — and is therefore non-negative
exactly when the particle's density is at least the rest density. -/
theorem pressure_after_iterations (s : State) (k i : Nat) (hk : 1 ≤ k)
    (hi : i < s.particles.length) :
    (getP ((pressureSolveBody^[k]) s).particles i).p =
      1000 * ((getP ((pressureSolveBody^[k]) s).particles i).rho - s.fluidParams.density) ∧
    (s.fluidParams.density ≤ (getP ((pressureSolveBody^[k]) s).particles i).rho →
      0 ≤ (getP ((pressureSolveBody^[k]) s).particles i).p) := by
  obtain ⟨k', rfl⟩ : ∃ k', k = k' + 1 := ⟨k - 1, by omega⟩
  rw [Function.iterate_succ_apply']
  have hlen : i < ((pressureSolveBody^[k']) s).particles.length := by
    rw [iterate_body_length]; exact hi
  rw [pressureSolveBody_particles _ _ hlen, computeWCSPHPressure_p, computeWCSPHPressure_rho,
    stageMap_fluidParams, iterate_body_fluidParams]
  exact ⟨rfl, fun hrho => by linarith⟩

/-- Witness for the amended C1 theorem at the one-particle scene after
one loop iteration. -/
theorem pressure_after_iterations_witness :
    (getP ((pressureSolveBody^[1]) witState).particles 0).p =
      1000 * ((getP ((pressureSolveBody^[1]) witState).particles 0).rho -
        witState.fluidParams.density) :=
  (pressure_after_iterations witState 1 0 (by norm_num) (by norm_num [witState])).1

/-! ### C2 — loop guard: minimum iterations, tolerance, no cap -/

/-- A terminating run of the loop exits with the guard false, having run
at least as many iterations as it entered with, and the configured
minimum-iteration count is carried unchanged to the exit state. -/
theorem pressureSolveLoop_exit (fuel : Nat) (s : State) (l : Nat) (s' : State) (l' : Nat)
    (h : pressureSolveLoop fuel s l = some (s', l')) :
    pressureSolveCond s' l' = false ∧ l ≤ l' ∧
      s'.maxPressureSolveIterationNb = s.maxPressureSolveIterationNb ∧
      s'.maxDensityError = s.maxDensityError ∧
      s'.fluidParams = s.fluidParams := by
  induction fuel generalizing s l with
  | zero => exact absurd h (by simp [pressureSolveLoop])
  | succ fuel ih =>
    rw [pressureSolveLoop] at h
    by_cases hc : pressureSolveCond s l = true
    · rw [if_pos hc] at h
      obtain ⟨h1, h2, h3, h4, h5⟩ := ih (pressureSolveBody s) (l + 1) h
      exact ⟨h1, by omega, by rw [h3]; rfl, by rw [h4]; rfl, by rw [h5]; rfl⟩
    · rw [if_neg hc] at h
      obtain ⟨rfl, rfl⟩ : s = s' ∧ l = l' := by
        constructor <;> [exact congrArg Prod.fst (Option.some.inj h);
          exact congrArg Prod.snd (Option.some.inj h)]
      exact ⟨Bool.not_eq_true _ ▸ (by simpa using hc), le_refl _, rfl, rfl, rfl⟩

/-- If the guard holds at every state the loop can reach, no amount of
fuel makes the loop return. -/
theorem pressureSolveLoop_none (fuel : Nat) (s : State) (l : Nat)
    (h : ∀ k : Nat, pressureSolveCond ((pressureSolveBody^[k]) s) (l + k) = true) :
    pressureSolveLoop fuel s l = none := by
  induction fuel generalizing s l with
  | zero => rfl
  | succ fuel ih =>
    rw [pressureSolveLoop, if_pos (by simpa using h 0)]
    refine ih (pressureSolveBody s) (l + 1) (fun k => ?_)
    have hk := h (k + 1)
    rw [Function.iterate_succ_apply] at hk
    rw [show l + 1 + k = l + (k + 1) by omega]
    exact hk

/-- C2: the pressure-solve loop runs at least the configured minimum
number of iterations and, on exit, the mean corrected density is within
the configured tolerance above rest density; and the loop has no
iteration cap: whenever the mean corrected density exceeds the tolerance
above rest density after every iteration, the loop never terminates, for
any fuel. -/
theorem pressureSolve_min_iterations_no_cap :
    (∀ fuel (s s' : State) (l' : Nat), pressureSolve fuel s = some (s', l') →
      s.maxPressureSolveIterationNb ≤ l' ∧
      ¬ s'.averageDensity - s'.fluidParams.density > s'.maxDensityError) ∧
    (∀ s : State, 1 ≤ s.maxPressureSolveIterationNb →
      (∀ k : Nat, ((pressureSolveBody^[k + 1]) { s with averageDensity := 0 }).averageDensity -
        s.fluidParams.density > s.maxDensityError) →
      ∀ fuel, pressureSolve fuel s = none) := by
  constructor
  · intro fuel s s' l' h
    obtain ⟨h1, _, h3, _, _⟩ := pressureSolveLoop_exit fuel _ 0 s' l' h
    rw [pressureSolveCond, Bool.or_eq_false_iff, decide_eq_false_iff_not,
      decide_eq_false_iff_not] at h1
    refine ⟨?_, h1.1⟩
    have h3' : s'.maxPressureSolveIterationNb = s.maxPressureSolveIterationNb := h3
    have := h1.2
    rw [h3'] at this
    omega
  · intro s hmin hdiv fuel
    refine pressureSolveLoop_none fuel _ 0 (fun k => ?_)
    match k with
    | 0 =>
      rw [pressureSolveCond, Bool.or_eq_true]
      right
      simpa using hmin
    | k + 1 =>
      rw [pressureSolveCond, Bool.or_eq_true]
      left
      rw [decide_eq_true_eq, iterate_body_fluidParams, iterate_body_maxDensityError]
      have := hdiv k
      simpa using this

/-- A particle whose corrected density stays far above rest density,
making the solver guard hold forever. -/
def divParticle : Particle :=
  { x := 0, v := 0, v_adv := 0, rho := 0, rho_adv := 0, rho_corr := 10, p := 0, p_l := 0,
    f_adv := 0, f_p := 0, n := 0, dii_fluid := 0, dii_boundary := 0, sum_dij := 0,
    aii := 0, isSurface := false, fluidNeighbor := [], boundaryNeighbor := [],
    fluidParams := witFluidParams }

/-- A state on which the pressure solve never converges: mean corrected
density `10` stays above rest density `1` plus tolerance `1` forever. -/
def divState : State := { witState with particles := [divParticle] }

/-- Witness for C2: the divergent state exhausts any fuel (here `100`)
without terminating. -/
theorem pressureSolve_min_iterations_no_cap_witness :
    pressureSolve 100 divState = none := by
  refine pressureSolve_min_iterations_no_cap.2 divState (by norm_num [divState, witState]) ?_ 100
  intro k
  rw [Function.iterate_succ_apply', pressureSolveBody_averageDensity,
    iterate_body_map_rho_corr, iterate_body_length]
  norm_num [divState, divParticle, witState, witFluidParams]

/-! ### Stage-level preservation lemmas -/

theorem mortonSort_map_perm {α : Type} (s : State) (h : Particle → α) :
    ((mortonSort s).particles.map h).Perm (s.particles.map h) :=
  (mortonSort_perm s).map h

theorem prepareGridCore_length (s0 : State) :
    (prepareGridCore s0).particles.length = s0.particles.length := by
  show (stageMap _ _).particles.length = _
  rw [length_stageMap]

theorem prepareGridCore_map {α : Type} (s0 : State) (h : Particle → α)
    (hf : ∀ (u : State) (r : ℚ) (pi : Particle), h (getNearestNeighbor u r pi) = h pi) :
    (prepareGridCore s0).particles.map h = s0.particles.map h := by
  show ((stageMap _ _).particles.map h) = _
  rw [map_stageMap _ _ h (fun i pi => hf _ _ _)]

theorem prepareGrid_length (s : State) :
    (prepareGrid s).particles.length = s.particles.length := by
  unfold prepareGrid
  split
  · rw [prepareGridCore_length, mortonSort_length]
  · rw [prepareGridCore_length]

theorem prepareGrid_map_perm {α : Type} (s : State) (h : Particle → α)
    (hf : ∀ (u : State) (r : ℚ) (pi : Particle), h (getNearestNeighbor u r pi) = h pi) :
    ((prepareGrid s).particles.map h).Perm (s.particles.map h) := by
  unfold prepareGrid
  split
  · rw [prepareGridCore_map _ h hf]
    exact mortonSort_map_perm s h
  · rw [prepareGridCore_map _ h hf]

theorem predictAdvection_length (s : State) :
    (predictAdvection s).particles.length = s.particles.length := by
  simp [predictAdvection, length_stageMap]

theorem predictAdvection_map {α : Type} (s : State) (h : Particle → α)
    (h1 : ∀ u i pi, h (computeDensity u i pi) = h pi)
    (h2 : ∀ u i pi, h (computeNormal u i pi) = h pi)
    (h3 : ∀ u i pi, h (computeDii u i (predictVelocity u i (computeAdvectionForces u i pi))) = h pi)
    (h4 : ∀ u i pi, h (computeAii u i (initializePressure u i (predictDensity u i pi))) = h pi) :
    (predictAdvection s).particles.map h = s.particles.map h := by
  unfold predictAdvection
  rw [map_stageMap _ _ h (fun i pi => h4 _ _ _), map_stageMap _ _ h (fun i pi => h3 _ _ _),
    map_stageMap _ _ h (fun i pi => h2 _ _ _), map_stageMap _ _ h (fun i pi => h1 _ _ _)]

theorem pressureSolveBody_map {α : Type} (s : State) (h : Particle → α)
    (h1 : ∀ u i pi, h (computeSumDijPj u i pi) = h pi)
    (h2 : ∀ u i pi, h (computeWCSPHPressure u i pi) = h pi) :
    (pressureSolveBody s).particles.map h = s.particles.map h := by
  show ((stageMap (stageMap s computeSumDijPj) computeWCSPHPressure).particles.map h) = _
  rw [map_stageMap _ _ h (fun i pi => h2 _ _ _), map_stageMap _ _ h (fun i pi => h1 _ _ _)]

theorem pressureSolveLoop_some_map {α : Type} (h : Particle → α)
    (h1 : ∀ u i pi, h (computeSumDijPj u i pi) = h pi)
    (h2 : ∀ u i pi, h (computeWCSPHPressure u i pi) = h pi)
    (fuel : Nat) (s : State) (l : Nat) (s' : State) (l' : Nat)
    (hrun : pressureSolveLoop fuel s l = some (s', l')) :
    s'.particles.map h = s.particles.map h := by
  induction fuel generalizing s l with
  | zero => exact absurd hrun (by simp [pressureSolveLoop])
  | succ fuel ih =>
    rw [pressureSolveLoop] at hrun
    by_cases hc : pressureSolveCond s l = true
    · rw [if_pos hc] at hrun
      rw [ih (pressureSolveBody s) (l + 1) hrun, pressureSolveBody_map s h h1 h2]
    · rw [if_neg hc] at hrun
      obtain rfl : s = s' := congrArg Prod.fst (Option.some.inj hrun)
      rfl

theorem pressureSolveLoop_some_pSources (fuel : Nat) (s : State) (l : Nat) (s' : State)
    (l' : Nat) (hrun : pressureSolveLoop fuel s l = some (s', l')) :
    s'.pSources = s.pSources := by
  induction fuel generalizing s l with
  | zero => exact absurd hrun (by simp [pressureSolveLoop])
  | succ fuel ih =>
    rw [pressureSolveLoop] at hrun
    by_cases hc : pressureSolveCond s l = true
    · rw [if_pos hc] at hrun
      exact (ih (pressureSolveBody s) (l + 1) hrun).trans rfl
    · rw [if_neg hc] at hrun
      obtain rfl : s = s' := congrArg Prod.fst (Option.some.inj hrun)
      rfl

theorem integration_length (s : State) :
    (integration s).particles.length = s.particles.length := by
  show (stageMap (stageMap _ computePressureForce) _).particles.length = _
  rw [length_stageMap, length_stageMap]

theorem integration_map {α : Type} (s : State) (h : Particle → α)
    (h1 : ∀ u i pi, h (computePressureForce u i pi) = h pi)
    (h2 : ∀ (u : State) (pi : Particle), h (integrationKernel u pi) = h pi) :
    (integration s).particles.map h = s.particles.map h := by
  show ((stageMap (stageMap _ computePressureForce) _).particles.map h) = _
  rw [map_stageMap _ _ h (fun i pi => h2 _ _), map_stageMap _ _ h (fun i pi => h1 _ _ _)]

theorem applySources_of_empty (s : State) (h : s.pSources = []) : applySources s = s := by
  simp [applySources, h]

theorem applySources_length_le (s : State) :
    s.particles.length ≤ (applySources s).particles.length := by
  unfold applySources
  induction s.pSources generalizing s with
  | nil => simp
  | cons src tl ih =>
    rw [List.foldl_cons]
    refine le_trans ?_ (ih _)
    simp

theorem prepareGrid_pSources (s : State) : (prepareGrid s).pSources = s.pSources := by
  unfold prepareGrid
  split <;> rfl

theorem predictAdvection_pSources (s : State) :
    (predictAdvection s).pSources = s.pSources := rfl

theorem pressureSolve_some_pSources (fuel : Nat) (u s' : State) (l' : Nat)
    (h : pressureSolve fuel u = some (s', l')) : s'.pSources = u.pSources := by
  unfold pressureSolve at h
  exact (pressureSolveLoop_some_pSources fuel _ 0 s' l' h).trans rfl

theorem pressureSolve_some_length (fuel : Nat) (u s' : State) (l' : Nat)
    (h : pressureSolve fuel u = some (s', l')) :
    s'.particles.length = u.particles.length := by
  unfold pressureSolve at h
  have hmap := pressureSolveLoop_some_map (fun _ => (0 : Nat)) (fun _ _ _ => rfl)
    (fun _ _ _ => rfl) fuel _ 0 s' l' h
  have := congrArg List.length hmap
  simpa using this

theorem pressureSolve_some_flags (fuel : Nat) (u s' : State) (l' : Nat)
    (h : pressureSolve fuel u = some (s', l')) :
    s'.particles.map (fun q => q.isSurface) = u.particles.map (fun q => q.isSurface) := by
  unfold pressureSolve at h
  exact (pressureSolveLoop_some_map (fun q => q.isSurface) (fun _ _ _ => rfl)
    (fun _ _ _ => rfl) fuel _ 0 s' l' h).trans rfl

theorem prepareGrid_flags_perm (s : State) :
    ((prepareGrid s).particles.map (fun q => q.isSurface)).Perm
      (s.particles.map (fun q => q.isSurface)) :=
  prepareGrid_map_perm s _ (fun _ _ _ => rfl)

/-! ### C5 — particle count never decreases; sinks are inert -/

/-- A single simulation step with no registered sources keeps the
particle count; used for the iterated statement. -/
theorem computeSimulationStep_length_eq (fuel : Nat) (s s' : State)
    (hsrc : s.pSources = []) (h : computeSimulationStep fuel s = some s') :
    s'.particles.length = s.particles.length ∧ s'.pSources = [] := by
  unfold computeSimulationStep at h
  cases hrun : pressureSolve fuel (predictAdvection (prepareGrid s)) with
  | none => rw [hrun] at h; exact absurd h (by simp)
  | some pr =>
    rw [hrun] at h
    obtain ⟨s3, l3⟩ := pr
    have hps3 : s3.pSources = [] := by
      rw [pressureSolve_some_pSources fuel _ s3 l3 hrun, predictAdvection_pSources,
        prepareGrid_pSources]
      exact hsrc
    have hlen3 : s3.particles.length = s.particles.length := by
      rw [pressureSolve_some_length fuel _ s3 l3 hrun, predictAdvection_length,
        prepareGrid_length]
    have hint : (integration s3).pSources = [] := hps3
    obtain rfl : computeStats (applySinks (applySources (integration s3))) = s' :=
      Option.some.inj h
    rw [applySources_of_empty _ hint]
    refine ⟨?_, hps3⟩
    show (integration s3).particles.length = s.particles.length
    rw [integration_length, hlen3]

/-- Iterated steps with no sources keep the particle count. -/
theorem iterateSteps_length (fuel N : Nat) (t t' : State) (hsrc : t.pSources = [])
    (hrun : iterateSteps fuel N t = some t') :
    t'.particles.length = t.particles.length := by
  induction N generalizing t with
  | zero =>
    obtain rfl : t = t' := Option.some.inj hrun
    rfl
  | succ N ih =>
    rw [iterateSteps] at hrun
    cases hstep : computeSimulationStep fuel t with
    | none => rw [hstep] at hrun; exact absurd hrun (by simp)
    | some t1 =>
      rw [hstep] at hrun
      obtain ⟨h1, h2⟩ := computeSimulationStep_length_eq fuel t t1 hsrc hstep
      rw [ih t1 h2 hrun, h1]

/-- C5: `applySinks` is the identity (no particle is ever removed); a
simulation step never decreases the particle count; `init` keeps the
particle count; and over any run with no registered sources the count
after `N` steps equals the count at `init`. -/
theorem particle_count_invariants :
    (∀ s : State, applySinks s = s) ∧
    (∀ (fuel : Nat) (s s' : State), computeSimulationStep fuel s = some s' →
      s.particles.length ≤ s'.particles.length) ∧
    (∀ s : State, (init s).particles.length = s.particles.length) ∧
    (∀ (fuel N : Nat) (s s' : State), s.pSources = [] →
      iterateSteps fuel N (init s) = some s' →
      s'.particles.length = (init s).particles.length) := by
  refine ⟨fun s => rfl, ?_, ?_, ?_⟩
  · intro fuel s s' h
    unfold computeSimulationStep at h
    cases hrun : pressureSolve fuel (predictAdvection (prepareGrid s)) with
    | none => rw [hrun] at h; exact absurd h (by simp)
    | some pr =>
      rw [hrun] at h
      obtain ⟨s3, l3⟩ := pr
      obtain rfl : computeStats (applySinks (applySources (integration s3))) = s' :=
        Option.some.inj h
      have hlen3 : s3.particles.length = s.particles.length := by
        rw [pressureSolve_some_length fuel _ s3 l3 hrun, predictAdvection_length,
          prepareGrid_length]
      calc s.particles.length = (integration s3).particles.length := by
            rw [integration_length, hlen3]
        _ ≤ (applySources (integration s3)).particles.length := applySources_length_le _
        _ = (computeStats (applySinks (applySources (integration s3)))).particles.length := rfl
  · intro s
    show ((prepareGrid (computeBoundaryVolume _)).particles.map _).length = _
    rw [List.length_map, prepareGrid_length]
    show (mortonSort s).particles.length = _
    rw [mortonSort_length]
  · intro fuel N s s' hsrc hrun
    have hisrc : (init s).pSources = [] := by
      show (prepareGrid (computeBoundaryVolume _)).pSources = _
      rw [prepareGrid_pSources]
      exact hsrc
    exact iterateSteps_length fuel N (init s) s' hisrc hrun

/-! ### C6 — surface flags are never recomputed during a step -/

/-- The multiset of surface flags survives a full simulation step
unchanged (no stage of `computeSimulationStep` writes `isSurface`). -/
theorem computeSimulationStep_flags (fuel : Nat) (s s' : State) (hsrc : s.pSources = [])
    (h : computeSimulationStep fuel s = some s') :
    (s'.particles.map (fun q => q.isSurface)).Perm
      (s.particles.map (fun q => q.isSurface)) := by
  unfold computeSimulationStep at h
  cases hrun : pressureSolve fuel (predictAdvection (prepareGrid s)) with
  | none => rw [hrun] at h; exact absurd h (by simp)
  | some pr =>
    rw [hrun] at h
    obtain ⟨s3, l3⟩ := pr
    have hps3 : s3.pSources = [] := by
      rw [pressureSolve_some_pSources fuel _ s3 l3 hrun, predictAdvection_pSources,
        prepareGrid_pSources]
      exact hsrc
    obtain rfl : computeStats (applySinks (applySources (integration s3))) = s' :=
      Option.some.inj h
    rw [applySources_of_empty _ (show (integration s3).pSources = [] from hps3)]
    show ((integration s3).particles.map (fun q => q.isSurface)).Perm _
    rw [integration_map s3 (fun q => q.isSurface) (fun _ _ _ => rfl) (fun _ _ => rfl),
      pressureSolve_some_flags fuel _ s3 l3 hrun,
      predictAdvection_map _ (fun q => q.isSurface) (fun _ _ _ => rfl) (fun _ _ _ => rfl)
        (fun _ _ _ => rfl) (fun _ _ _ => rfl)]
    exact prepareGrid_flags_perm s

/-- C6 (amended): no stage of `computeSimulationStep` recomputes the
surface flag — over a step with no sources the multiset of flags is
exactly carried over; the flags are set to `true` for every particle
once, at `init`; and the helper `isSurfaceParticle` (used only by the
`getSurfaceParticle` export) tests only whether the squared normal
exceeds the threshold, with no fluid-neighbor-count clause and no
one-ring dilation. -/
theorem surface_flag_never_recomputed :
    (∀ (fuel : Nat) (s s' : State), s.pSources = [] →
      computeSimulationStep fuel s = some s' →
      (s'.particles.map (fun q => q.isSurface)).Perm
        (s.particles.map (fun q => q.isSurface))) ∧
    (∀ s : State, ∀ q ∈ (init s).particles, q.isSurface = true) ∧
    (∀ (s : State) (i : Nat) (t : ℚ),
      isSurfaceParticle s i t = decide (t < (getP s.particles i).n.lengthSquared)) := by
  refine ⟨computeSimulationStep_flags, ?_, fun _ _ _ => rfl⟩
  intro s q hq
  obtain ⟨r, _, rfl⟩ := List.mem_map.mp hq
  rfl

/-! ### Bucket membership -/

theorem mem_pushBucket (b : Buckets) (c0 : Cell) (i : Nat) (c : Cell) (j : Nat) :
    j ∈ pushBucket b c0 i c ↔ j ∈ b c ∨ (j = i ∧ c = c0) := by
  unfold pushBucket
  by_cases h : c = c0
  · subst h
    rw [if_pos rfl]
    simp
  · rw [if_neg h]
    simp [h]

theorem mem_buildGrid_aux (g : GridUtility) (xs : List Vec3) (n : Nat) (acc : Buckets)
    (c : Cell) (j : Nat) :
    (j ∈ (List.range n).foldl (fun acc i =>
        let ci := g.worldToGrid (xs.getD i 0)
        if g.isInsideCell ci then pushBucket acc ci i else acc) acc c) ↔
      j ∈ acc c ∨ (j < n ∧ g.isInsideCell (g.worldToGrid (xs.getD j 0)) = true ∧
        c = g.worldToGrid (xs.getD j 0)) := by
  induction n generalizing acc with
  | zero => simp
  | succ n ih =>
    rw [List.range_succ, List.foldl_append, List.foldl_cons, List.foldl_nil]
    split
    next hin =>
      rw [mem_pushBucket, ih]
      constructor
      · rintro (⟨h | ⟨h1, h2, h3⟩⟩ | ⟨rfl, rfl⟩)
        · exact Or.inl h
        · exact Or.inr ⟨by omega, h2, h3⟩
        · exact Or.inr ⟨by omega, hin, rfl⟩
      · rintro (h | ⟨h1, h2, h3⟩)
        · exact Or.inl (Or.inl h)
        · by_cases hj : j = n
          · subst hj
            exact Or.inr ⟨rfl, h3⟩
          · exact Or.inl (Or.inr ⟨by omega, h2, h3⟩)
    next hin =>
      rw [ih]
      constructor
      · rintro (h | ⟨h1, h2, h3⟩)
        · exact Or.inl h
        · exact Or.inr ⟨by omega, h2, h3⟩
      · rintro (h | ⟨h1, h2, h3⟩)
        · exact Or.inl h
        · by_cases hj : j = n
          · subst hj
            exact absurd h2 hin
          · exact Or.inr ⟨by omega, h2, h3⟩

/-- Characterization of the rebuilt buckets: index `j` sits in bucket
`c` exactly when `j` is a valid index whose position's cell is inside
the grid and equals `c`. -/
theorem mem_buildGrid (g : GridUtility) (xs : List Vec3) (c : Cell) (j : Nat) :
    j ∈ buildGrid g xs c ↔
      j < xs.length ∧ g.isInsideCell (g.worldToGrid (xs.getD j 0)) = true ∧
        c = g.worldToGrid (xs.getD j 0) := by
  unfold buildGrid emptyBuckets
  rw [mem_buildGrid_aux]
  simp

/-! ### Neighbor-list membership after a search pass -/

theorem getD_map_of_lt {α β : Type} (f : α → β) (l : List α) (i : Nat) (d : α) (d' : β)
    (h : i < l.length) : (l.map f).getD i d' = f (l.getD i d) := by
  rw [List.getD_eq_getElem?_getD, List.getElem?_map, List.getElem?_eq_getElem h,
    List.getD_eq_getElem?_getD, List.getElem?_eq_getElem h]
  rfl

theorem getD_map_x (ps : List Particle) (j : Nat) (h : j < ps.length) :
    (ps.map Particle.x).getD j 0 = (getP ps j).x :=
  getD_map_of_lt Particle.x ps j defaultParticle 0 h

theorem getP_mem (ps : List Particle) (i : Nat) (h : i < ps.length) : getP ps i ∈ ps := by
  show ps.getD i defaultParticle ∈ ps
  rw [List.getD_eq_getElem?_getD, List.getElem?_eq_getElem h]
  exact List.getElem_mem h

theorem Vec3.lengthSquared_zero : (0 : Vec3).lengthSquared = 0 := by
  simp [Vec3.lengthSquared, Vec3.dotProduct]

theorem getNearestNeighbor_fluidNeighbor (u : State) (r : ℚ) (pi : Particle) :
    (getNearestNeighbor u r pi).fluidNeighbor =
      (u.gridInfo.get27Neighbors pi.x r).foldl (fun acc c =>
        acc ++ (u.fluidGrid c).filter (fun j =>
          ((getP u.particles j).x - pi.x).lengthSquared < r * r)) [] := rfl

theorem mem_fluidNeighbor_search (u : State) (r : ℚ) (pi : Particle) (j : Nat) :
    j ∈ (getNearestNeighbor u r pi).fluidNeighbor ↔
      ∃ c, c ∈ u.gridInfo.get27Neighbors pi.x r ∧ j ∈ u.fluidGrid c ∧
        ((getP u.particles j).x - pi.x).lengthSquared < r * r := by
  rw [getNearestNeighbor_fluidNeighbor, mem_foldl_append]
  simp only [List.not_mem_nil, false_or, List.mem_filter, decide_eq_true_eq]

theorem mem_get27Neighbors (g : GridUtility) (p : Vec3) (r : ℚ) (c : Cell) :
    c ∈ g.get27Neighbors p r ↔
      g.isInsideCell (g.worldToGrid p) = true ∧ g.isInsideCell c = true ∧
      ∃ o ∈ cellOffsets, c = ((g.worldToGrid p).1 + o.1, (g.worldToGrid p).2.1 + o.2.1,
        (g.worldToGrid p).2.2 + o.2.2) := by
  rw [show g.get27Neighbors p r =
      (if g.isInsideCell (g.worldToGrid p) then
        (cellOffsets.map (fun o => ((g.worldToGrid p).1 + o.1, (g.worldToGrid p).2.1 + o.2.1,
          (g.worldToGrid p).2.2 + o.2.2))).filter (fun c' => g.isInsideCell c')
      else []) from rfl]
  split
  next hin =>
    rw [List.mem_filter]
    simp only [List.mem_map]
    constructor
    · rintro ⟨⟨o, ho, rfl⟩, hc⟩
      exact ⟨hin, hc, o, ho, rfl⟩
    · rintro ⟨-, hc, o, ho, rfl⟩
      exact ⟨⟨o, ho, rfl⟩, hc⟩
  next hin =>
    simp only [List.not_mem_nil, false_iff]
    rintro ⟨h1, -, -⟩
    exact hin h1

theorem cellOffsets_neg {o : Cell} (h : o ∈ cellOffsets) :
    ((-o.1, -o.2.1, -o.2.2) : Cell) ∈ cellOffsets := by
  simp only [cellOffsets, List.mem_flatMap, List.mem_map, List.mem_cons,
    List.not_mem_nil, or_false] at h ⊢
  obtain ⟨a, ha, b, hb, c, hc, rfl⟩ := h
  refine ⟨-a, by omega, -b, by omega, -c, by omega, rfl⟩

theorem offset_exists_symm (a b : Cell) :
    (∃ o ∈ cellOffsets, b = (a.1 + o.1, a.2.1 + o.2.1, a.2.2 + o.2.2)) ↔
    (∃ o ∈ cellOffsets, a = (b.1 + o.1, b.2.1 + o.2.1, b.2.2 + o.2.2)) := by
  constructor <;>
  · rintro ⟨o, ho, rfl⟩
    refine ⟨(-o.1, -o.2.1, -o.2.2), cellOffsets_neg ho, ?_⟩
    simp [Prod.ext_iff]

theorem prepareGridCore_getP (s0 : State) (i : Nat) (hi : i < s0.particles.length) :
    getP (prepareGridCore s0).particles i =
      getNearestNeighbor
        { s0 with fluidGrid := buildGrid s0.gridInfo (s0.particles.map Particle.x) }
        (2 * (getP s0.particles i).fluidParams.smoothingRadius) (getP s0.particles i) :=
  getP_stageMap _ _ i hi

/-- Full characterization of fluid-neighbor membership after the search
pass: both cells inside the grid, the candidate's cell in the 27-block
of particle `i`'s cell, a valid index, and squared distance strictly
below the squared lookup radius. -/
theorem mem_fluidNeighbor_core (s0 : State) (i j : Nat) (hi : i < s0.particles.length) :
    j ∈ (getP (prepareGridCore s0).particles i).fluidNeighbor ↔
      (s0.gridInfo.isInsideCell (s0.gridInfo.worldToGrid (getP s0.particles i).x) = true ∧
       s0.gridInfo.isInsideCell (s0.gridInfo.worldToGrid (getP s0.particles j).x) = true ∧
       (∃ o ∈ cellOffsets, s0.gridInfo.worldToGrid (getP s0.particles j).x =
          ((s0.gridInfo.worldToGrid (getP s0.particles i).x).1 + o.1,
           (s0.gridInfo.worldToGrid (getP s0.particles i).x).2.1 + o.2.1,
           (s0.gridInfo.worldToGrid (getP s0.particles i).x).2.2 + o.2.2)) ∧
       j < s0.particles.length ∧
       ((getP s0.particles j).x - (getP s0.particles i).x).lengthSquared <
         (2 * (getP s0.particles i).fluidParams.smoothingRadius) *
         (2 * (getP s0.particles i).fluidParams.smoothingRadius)) := by
  rw [prepareGridCore_getP s0 i hi, mem_fluidNeighbor_search]
  constructor
  · rintro ⟨c, hc, hjg, hd⟩
    have hc' : c ∈ s0.gridInfo.get27Neighbors (getP s0.particles i).x
        (2 * (getP s0.particles i).fluidParams.smoothingRadius) := hc
    have hjg' : j ∈ buildGrid s0.gridInfo (s0.particles.map Particle.x) c := hjg
    have hd' : ((getP s0.particles j).x - (getP s0.particles i).x).lengthSquared <
        (2 * (getP s0.particles i).fluidParams.smoothingRadius) *
        (2 * (getP s0.particles i).fluidParams.smoothingRadius) := hd
    rw [mem_get27Neighbors] at hc'
    obtain ⟨hin_i, hin_c, o, ho, hco⟩ := hc'
    rw [mem_buildGrid] at hjg'
    obtain ⟨hjlen, hjin, hcell⟩ := hjg'
    rw [List.length_map] at hjlen
    rw [getD_map_x s0.particles j hjlen] at hjin hcell
    refine ⟨hin_i, hjin, ⟨o, ho, ?_⟩, hjlen, hd'⟩
    rw [← hcell, hco]
  · rintro ⟨hin_i, hin_j, ⟨o, ho, hoeq⟩, hjlen, hd⟩
    refine ⟨s0.gridInfo.worldToGrid (getP s0.particles j).x, ?_, ?_, hd⟩
    · show _ ∈ s0.gridInfo.get27Neighbors (getP s0.particles i).x
        (2 * (getP s0.particles i).fluidParams.smoothingRadius)
      rw [mem_get27Neighbors]
      exact ⟨hin_i, hin_j, o, ho, hoeq⟩
    · show j ∈ buildGrid s0.gridInfo (s0.particles.map Particle.x)
        (s0.gridInfo.worldToGrid (getP s0.particles j).x)
      rw [mem_buildGrid, List.length_map, getD_map_x s0.particles j hjlen]
      exact ⟨hjlen, hin_j, rfl⟩

/-- Fluid-neighbor membership after the search is symmetric for two
valid indices whose particles share the smoothing radius. -/
theorem prepareGridCore_neighbor_symm (s0 : State) (i j : Nat)
    (hi : i < s0.particles.length) (hj : j < s0.particles.length)
    (hr : (getP s0.particles i).fluidParams.smoothingRadius =
          (getP s0.particles j).fluidParams.smoothingRadius) :
    (j ∈ (getP (prepareGridCore s0).particles i).fluidNeighbor ↔
     i ∈ (getP (prepareGridCore s0).particles j).fluidNeighbor) := by
  rw [mem_fluidNeighbor_core s0 i j hi, mem_fluidNeighbor_core s0 j i hj]
  constructor
  · rintro ⟨hin_i, hin_j, hoff, -, hd⟩
    refine ⟨hin_j, hin_i, (offset_exists_symm _ _).mp hoff, hi, ?_⟩
    rw [Vec3.lengthSquared_sub_comm, ← hr]
    exact hd
  · rintro ⟨hin_j, hin_i, hoff, -, hd⟩
    refine ⟨hin_i, hin_j, (offset_exists_symm _ _).mpr hoff, hj, ?_⟩
    rw [Vec3.lengthSquared_sub_comm, hr]
    exact hd

/-- `computeDensity`'s accumulation loops as closed-form neighbor sums
(shared helper). -/
theorem computeDensity_rho (s : State) (i : Nat) (h : i < s.particles.length) :
    (getP (stageMap s computeDensity).particles i).rho =
      ((getP s.particles i).fluidNeighbor.map (fun j =>
        (getP s.particles j).fluidParams.mass *
        (getP s.particles j).fluidParams.monaghanKernel.monaghanValue
          ((getP s.particles i).x - (getP s.particles j).x))).sum +
      ((getP s.particles i).boundaryNeighbor.map (fun j =>
        (getP s.particles i).fluidParams.monaghanKernel.monaghanValue
          ((getP s.particles i).x - (getB s.boundaries j).x) * (getB s.boundaries j).psi)).sum := by
  rw [getP_stageMap _ _ _ h]
  simp only [computeDensity]
  rw [foldl_add_eq_sum, foldl_add_eq_sum]
  ring

/-! ### Single-particle states through the pipeline -/

theorem mortonSort_singleton (s : State) (p0 : Particle) (hp : s.particles = [p0]) :
    (mortonSort s).particles = [p0] := by
  have h := mortonSort_perm s
  rw [hp] at h
  exact List.perm_singleton.mp h

theorem stageMap_singleton (t : State) (f : State → Nat → Particle → Particle) (q : Particle)
    (hq : t.particles = [q]) : (stageMap t f).particles = [f t 0 q] := by
  show ((List.range t.particles.length).map fun i => f t i (getP t.particles i)) = _
  rw [hq]
  simp only [List.length_cons, List.length_nil, Nat.zero_add, List.range_succ, List.range_zero,
    List.nil_append, List.map_cons, List.map_nil]
  rfl

theorem prepareGrid_boundaryGrid (s : State) : (prepareGrid s).boundaryGrid = s.boundaryGrid := by
  unfold prepareGrid
  split <;> rfl

theorem prepareGrid_boundaries (s : State) : (prepareGrid s).boundaries = s.boundaries := by
  unfold prepareGrid
  split <;> rfl

theorem prepareGrid_maxIter (s : State) :
    (prepareGrid s).maxPressureSolveIterationNb = s.maxPressureSolveIterationNb := by
  unfold prepareGrid
  split <;> rfl

theorem prepareGrid_maxDensityError (s : State) :
    (prepareGrid s).maxDensityError = s.maxDensityError := by
  unfold prepareGrid
  split <;> rfl

theorem prepareGrid_fluidParams (s : State) :
    (prepareGrid s).fluidParams = s.fluidParams := by
  unfold prepareGrid
  split <;> rfl

theorem prepareGrid_dt (s : State) : (prepareGrid s).dt = s.dt := by
  unfold prepareGrid
  split <;> rfl

theorem prepareGrid_gravity (s : State) : (prepareGrid s).gravity = s.gravity := by
  unfold prepareGrid
  split <;> rfl

theorem prepareGrid_countTime (s : State) : (prepareGrid s).countTime = s.countTime := by
  unfold prepareGrid
  split <;> rfl

/-- On a one-particle state the neighbor search gives particle 0 a
fluid-neighbor list that can only contain the index `0` and (when the
boundary buckets are empty) an empty boundary-neighbor list; all other
fields are untouched. -/
theorem prepareGridCore_single (s0 : State) (p0 : Particle) (hs0 : s0.particles = [p0]) :
    ∃ L B,
      (prepareGridCore s0).particles = [{ p0 with fluidNeighbor := L, boundaryNeighbor := B }] ∧
      (∀ j ∈ L, j = 0) ∧ (s0.boundaryGrid = emptyBuckets → B = []) := by
  have key := stageMap_singleton
    { s0 with fluidGrid := buildGrid s0.gridInfo (s0.particles.map Particle.x) }
    (fun s _ pi => getNearestNeighbor s (2 * pi.fluidParams.smoothingRadius) pi) p0 hs0
  unfold prepareGridCore
  rw [key]
  refine ⟨_, _, rfl, ?_, ?_⟩
  · intro j hj
    simp only [getNearestNeighbor] at hj
    rw [mem_foldl_append] at hj
    rcases hj with h | ⟨c, _, hc⟩
    · exact absurd h (List.not_mem_nil j)
    · have hbucket := (List.mem_filter.mp hc).1
      rw [mem_buildGrid] at hbucket
      have := hbucket.1
      rw [hs0] at this
      simpa using this
  · intro hempty
    simp only [getNearestNeighbor]
    refine foldl_eq_init _ _ _ (fun c _ acc => ?_)
    rw [show ({ s0 with fluidGrid := buildGrid s0.gridInfo (s0.particles.map Particle.x)
        } : State).boundaryGrid = s0.boundaryGrid from rfl, hempty]
    simp [emptyBuckets]

/-- On a one-particle state whose particle can only be its own neighbor,
the predictor stage leaves position and velocity alone and sets the
advected velocity to `v + (dt / mass) * (mass * gravity)`: the pairwise
advection forces all vanish on the self pair and only gravity remains. -/
theorem predictAdvection_single (t : State) (q : Particle) (ht : t.particles = [q])
    (hq0 : ∀ j ∈ q.fluidNeighbor, j = 0) (hqb : q.boundaryNeighbor = []) :
    ∃ q', (predictAdvection t).particles = [q'] ∧
      q'.v = q.v ∧ q'.x = q.x ∧
      q'.v_adv = q.v + (t.dt / t.fluidParams.mass) • (t.fluidParams.mass • t.gravity) ∧
      q'.fluidNeighbor = q.fluidNeighbor ∧ q'.boundaryNeighbor = [] ∧
      q'.fluidParams = q.fluidParams ∧ q'.rho_corr = q.rho_corr ∧
      q'.isSurface = q.isSurface := by
  have ht1 := stageMap_singleton t computeDensity q ht
  have ht2 := stageMap_singleton (stageMap t computeDensity) computeNormal _ ht1
  have hg2 : getP (stageMap (stageMap t computeDensity) computeNormal).particles 0 =
      computeNormal (stageMap t computeDensity) 0 (computeDensity t 0 q) := by
    rw [ht2]; rfl
  have hfadv : (computeAdvectionForces (stageMap (stageMap t computeDensity) computeNormal) 0
      (computeNormal (stageMap t computeDensity) 0 (computeDensity t 0 q))).f_adv =
      t.fluidParams.mass • t.gravity := by
    show (_ : Vec3) + _ • _ = _
    have hf1 : ((computeNormal (stageMap t computeDensity) 0
        (computeDensity t 0 q)).fluidNeighbor).foldl (fun acc j =>
          acc + computeViscosityForces (stageMap (stageMap t computeDensity) computeNormal) 0 j
            (computeNormal (stageMap t computeDensity) 0 (computeDensity t 0 q))
            + computeSurfaceTensionForces (stageMap (stageMap t computeDensity) computeNormal) 0 j
            (computeNormal (stageMap t computeDensity) 0 (computeDensity t 0 q))) (0 : Vec3)
        = 0 := by
      refine foldl_eq_init _ _ _ (fun j hj acc => ?_)
      have hj0 : j = 0 := hq0 j hj
      subst hj0
      have hvis : computeViscosityForces (stageMap (stageMap t computeDensity) computeNormal) 0 0
          (computeNormal (stageMap t computeDensity) 0 (computeDensity t 0 q)) = 0 := by
        simp [computeViscosityForces, hg2, sub_self]
      have hsur : computeSurfaceTensionForces
          (stageMap (stageMap t computeDensity) computeNormal) 0 0
          (computeNormal (stageMap t computeDensity) 0 (computeDensity t 0 q)) = 0 := by
        simp [computeSurfaceTensionForces]
      rw [hvis, hsur, add_zero, add_zero]
    show ((computeNormal (stageMap t computeDensity) 0
        (computeDensity t 0 q)).boundaryNeighbor).foldl _ _ + _ • _ = _
    rw [show (computeNormal (stageMap t computeDensity) 0
        (computeDensity t 0 q)).boundaryNeighbor = q.boundaryNeighbor from rfl, hqb,
      List.foldl_nil, hf1, zero_add]
    rfl
  have h3 := stageMap_singleton _
    (fun s i pi => computeDii s i (predictVelocity s i (computeAdvectionForces s i pi))) _ ht2
  have h4 := stageMap_singleton _
    (fun s i pi => computeAii s i (initializePressure s i (predictDensity s i pi))) _ h3
  refine ⟨_, h4, ?_, ?_, ?_, ?_, ?_, ?_, ?_, ?_⟩
  · rfl
  · rfl
  · show (predictVelocity _ 0 (computeAdvectionForces _ 0 _)).v_adv = _
    show (computeAdvectionForces _ 0 _).v + _ • (computeAdvectionForces _ 0 _).f_adv = _
    rw [hfadv]
    rfl
  · rfl
  · show (computeNormal (stageMap t computeDensity) 0
      (computeDensity t 0 q)).boundaryNeighbor = _
    rw [show (computeNormal (stageMap t computeDensity) 0
      (computeDensity t 0 q)).boundaryNeighbor = q.boundaryNeighbor from rfl, hqb]
  · rfl
  · rfl
  · rfl

/-- With the minimum-iteration count at its configured value `2` and
the mean corrected density already within tolerance, the pressure-solve
loop runs exactly its two minimum iterations and stops. -/
theorem pressureSolve_two_iterations (u : State) (h2 : u.maxPressureSolveIterationNb = 2)
    (hok : ¬ (pressureSolveBody (pressureSolveBody { u with averageDensity := 0 })
      ).averageDensity - u.fluidParams.density > u.maxDensityError) :
    pressureSolve 3 u =
      some (pressureSolveBody (pressureSolveBody { u with averageDensity := 0 }), 2) := by
  have c0 : pressureSolveCond { u with averageDensity := 0 } 0 = true := by
    rw [pressureSolveCond, Bool.or_eq_true]
    right
    rw [decide_eq_true_eq]
    have : ({ u with averageDensity := 0 } : State).maxPressureSolveIterationNb = 2 := h2
    omega
  have c1 : pressureSolveCond (pressureSolveBody { u with averageDensity := 0 }) 1 = true := by
    rw [pressureSolveCond, Bool.or_eq_true]
    right
    rw [decide_eq_true_eq]
    have : (pressureSolveBody ({ u with averageDensity := 0 } : State)
        ).maxPressureSolveIterationNb = 2 := h2
    omega
  have c2 : pressureSolveCond
      (pressureSolveBody (pressureSolveBody { u with averageDensity := 0 })) 2 = false := by
    rw [pressureSolveCond]
    refine Bool.or_eq_false_iff.mpr ⟨?_, ?_⟩
    · rw [decide_eq_false_iff_not]
      have hf : (pressureSolveBody (pressureSolveBody ({ u with averageDensity := 0 } : State))
          ).fluidParams = u.fluidParams := rfl
      have he : (pressureSolveBody (pressureSolveBody ({ u with averageDensity := 0 } : State))
          ).maxDensityError = u.maxDensityError := rfl
      rw [hf, he]
      exact hok
    · rw [decide_eq_false_iff_not]
      have : (pressureSolveBody (pressureSolveBody ({ u with averageDensity := 0 } : State))
          ).maxPressureSolveIterationNb = 2 := h2
      omega
  unfold pressureSolve
  rw [pressureSolveLoop, if_pos c0, pressureSolveLoop, if_pos c1, pressureSolveLoop,
    if_neg (by simp [c2])]

/-- The velocity/position stage of `integration` on a one-particle state
whose particle can only be its own neighbor: the pressure force on the
self pair vanishes, so `v = v_adv` and `x += dt * v_adv` exactly. -/
theorem integration_single (t : State) (q : Particle) (ht : t.particles = [q])
    (hq0 : ∀ j ∈ q.fluidNeighbor, j = 0) (hqb : q.boundaryNeighbor = []) :
    ∃ q', (integration t).particles = [q'] ∧
      q'.v = q.v_adv ∧ q'.x = q.x + t.dt • q.v_adv ∧
      q'.rho_corr = q.rho_corr ∧ q'.isSurface = q.isSurface ∧
      q'.fluidParams = q.fluidParams := by
  have ht0 : ({ t with countTime := t.countTime + 1, time := t.time + t.dt } : State
      ).particles = [q] := ht
  have h1 := stageMap_singleton _ computePressureForce _ ht0
  have hfp : (computePressureForce
      { t with countTime := t.countTime + 1, time := t.time + t.dt } 0 q).f_p = 0 := by
    show (q.boundaryNeighbor.foldl _ _ : Vec3) = 0
    rw [hqb, List.foldl_nil]
    refine foldl_eq_init _ _ _ (fun j hj acc => ?_)
    have hj0 : j = 0 := hq0 j hj
    subst hj0
    have : computeFluidPressureForce
        { t with countTime := t.countTime + 1, time := t.time + t.dt } 0 0 q = 0 := by
      simp [computeFluidPressureForce]
    rw [this, add_zero]
  have h2 := stageMap_singleton _ (fun u _ pi => integrationKernel u pi) _ h1
  have hik_v : ∀ (u : State) (pi : Particle),
      (integrationKernel u pi).v = pi.v_adv + (u.dt / pi.fluidParams.mass) • pi.f_p :=
    fun _ _ => rfl
  have hik_x : ∀ (u : State) (pi : Particle),
      (integrationKernel u pi).x =
        pi.x + u.dt • (pi.v_adv + (u.dt / pi.fluidParams.mass) • pi.f_p) :=
    fun _ _ => rfl
  refine ⟨_, h2, ?_, ?_, rfl, rfl, rfl⟩
  · rw [hik_v, show (computePressureForce
        { t with countTime := t.countTime + 1, time := t.time + t.dt } 0 q).v_adv = q.v_adv
      from rfl, hfp, smul_zero, add_zero]
  · rw [hik_x, show (computePressureForce
        { t with countTime := t.countTime + 1, time := t.time + t.dt } 0 q).x = q.x from rfl,
      show (computePressureForce
        { t with countTime := t.countTime + 1, time := t.time + t.dt } 0 q).v_adv = q.v_adv
      from rfl, hfp, smul_zero, add_zero]
    rfl

theorem pressureSolveBody_dt (Z : State) : (pressureSolveBody Z).dt = Z.dt := rfl

theorem pressureSolveBody_gravity (Z : State) : (pressureSolveBody Z).gravity = Z.gravity := rfl

theorem pressureSolveBody_boundaryGrid (Z : State) :
    (pressureSolveBody Z).boundaryGrid = Z.boundaryGrid := rfl

theorem pressureSolveBody_pSources (Z : State) : (pressureSolveBody Z).pSources = Z.pSources := rfl

theorem predictAdvection_dt (Z : State) : (predictAdvection Z).dt = Z.dt := rfl

theorem predictAdvection_gravity (Z : State) : (predictAdvection Z).gravity = Z.gravity := rfl

theorem predictAdvection_boundaryGrid (Z : State) :
    (predictAdvection Z).boundaryGrid = Z.boundaryGrid := rfl

theorem predictAdvection_maxIter (Z : State) :
    (predictAdvection Z).maxPressureSolveIterationNb = Z.maxPressureSolveIterationNb := rfl

theorem predictAdvection_maxDensityError (Z : State) :
    (predictAdvection Z).maxDensityError = Z.maxDensityError := rfl

theorem predictAdvection_fluidParams (Z : State) :
    (predictAdvection Z).fluidParams = Z.fluidParams := rfl

theorem averageDensityReset_dt (Z : State) :
    ({ Z with averageDensity := 0 } : State).dt = Z.dt := rfl

theorem averageDensityReset_gravity (Z : State) :
    ({ Z with averageDensity := 0 } : State).gravity = Z.gravity := rfl

theorem averageDensityReset_boundaryGrid (Z : State) :
    ({ Z with averageDensity := 0 } : State).boundaryGrid = Z.boundaryGrid := rfl

theorem averageDensityReset_pSources (Z : State) :
    ({ Z with averageDensity := 0 } : State).pSources = Z.pSources := rfl

theorem averageDensityReset_maxIter (Z : State) :
    ({ Z with averageDensity := 0 } : State).maxPressureSolveIterationNb =
      Z.maxPressureSolveIterationNb := rfl

theorem averageDensityReset_maxDensityError (Z : State) :
    ({ Z with averageDensity := 0 } : State).maxDensityError = Z.maxDensityError := rfl

theorem averageDensityReset_fluidParams (Z : State) :
    ({ Z with averageDensity := 0 } : State).fluidParams = Z.fluidParams := rfl

theorem integration_dt (Z : State) : (integration Z).dt = Z.dt := rfl

theorem integration_gravity (Z : State) : (integration Z).gravity = Z.gravity := rfl

theorem integration_boundaryGrid (Z : State) :
    (integration Z).boundaryGrid = Z.boundaryGrid := rfl

theorem integration_pSources (Z : State) : (integration Z).pSources = Z.pSources := rfl

theorem integration_maxIter (Z : State) :
    (integration Z).maxPressureSolveIterationNb = Z.maxPressureSolveIterationNb := rfl

theorem integration_maxDensityError (Z : State) :
    (integration Z).maxDensityError = Z.maxDensityError := rfl

theorem integration_fluidParams (Z : State) : (integration Z).fluidParams = Z.fluidParams := rfl

theorem applySinks_eq (Z : State) : applySinks Z = Z := rfl

theorem computeStats_particles (Z : State) : (computeStats Z).particles = Z.particles := rfl

theorem computeStats_dt (Z : State) : (computeStats Z).dt = Z.dt := rfl

theorem computeStats_gravity (Z : State) : (computeStats Z).gravity = Z.gravity := rfl

theorem computeStats_boundaryGrid (Z : State) :
    (computeStats Z).boundaryGrid = Z.boundaryGrid := rfl

theorem computeStats_pSources (Z : State) : (computeStats Z).pSources = Z.pSources := rfl

theorem computeStats_maxIter (Z : State) :
    (computeStats Z).maxPressureSolveIterationNb = Z.maxPressureSolveIterationNb := rfl

theorem computeStats_maxDensityError (Z : State) :
    (computeStats Z).maxDensityError = Z.maxDensityError := rfl

theorem computeStats_fluidParams (Z : State) : (computeStats Z).fluidParams = Z.fluidParams := rfl

set_option maxHeartbeats 2000000 in
/-- One full `computeSimulationStep` on a state holding a single
particle (with empty boundary buckets, no sources, the configured
minimum-iteration count 2, and a corrected density within tolerance so
the solver stops): the step terminates and updates the particle by
exactly `v_new = v + (dt / mass) * (mass * gravity)` and
`x_new = x + dt * v_new`, while every configuration field needed to take
another such step is carried over unchanged. -/
theorem computeSimulationStep_single (s : State) (p0 : Particle)
    (hp : s.particles = [p0]) (hbg : s.boundaryGrid = emptyBuckets)
    (hsrc : s.pSources = []) (hmax : s.maxPressureSolveIterationNb = 2)
    (hconv : ¬ p0.rho_corr - s.fluidParams.density > s.maxDensityError) :
    ∃ sOut pOut,
      computeSimulationStep 3 s = some sOut ∧
      sOut.particles = [pOut] ∧
      pOut.v = p0.v + (s.dt / s.fluidParams.mass) • (s.fluidParams.mass • s.gravity) ∧
      pOut.x = p0.x +
        s.dt • (p0.v + (s.dt / s.fluidParams.mass) • (s.fluidParams.mass • s.gravity)) ∧
      pOut.isSurface = p0.isSurface ∧ pOut.rho_corr = p0.rho_corr ∧
      sOut.pSources = [] ∧ sOut.boundaryGrid = emptyBuckets ∧
      sOut.maxPressureSolveIterationNb = 2 ∧ sOut.fluidParams = s.fluidParams ∧
      sOut.dt = s.dt ∧ sOut.gravity = s.gravity ∧ sOut.maxDensityError = s.maxDensityError := by
  have hs0p : (if s.countTime % 100 = 0 then mortonSort s else s).particles = [p0] := by
    split
    · exact mortonSort_singleton s p0 hp
    · exact hp
  have hs0bg : (if s.countTime % 100 = 0 then mortonSort s else s).boundaryGrid =
      emptyBuckets := by
    split
    · exact hbg
    · exact hbg
  obtain ⟨L, B, hPrep0, hL, hB⟩ := prepareGridCore_single _ p0 hs0p
  have hBnil : B = [] := hB hs0bg
  subst hBnil
  have hPrep : (prepareGrid s).particles =
      [{ p0 with fluidNeighbor := L, boundaryNeighbor := [] }] := hPrep0
  obtain ⟨q2, hAdv, hv2, hx2, hva2, hfn2, hbn2, hfp2, hrc2, hsurf2⟩ :=
    predictAdvection_single (prepareGrid s)
      { p0 with fluidNeighbor := L, boundaryNeighbor := [] } hPrep hL rfl
  have h2u : (predictAdvection (prepareGrid s)).maxPressureSolveIterationNb = 2 := by
    rw [predictAdvection_maxIter, prepareGrid_maxIter, hmax]
  have hu0p : ({ predictAdvection (prepareGrid s) with averageDensity := 0 } : State).particles
      = [q2] := hAdv
  have havg : (pressureSolveBody (pressureSolveBody
      { predictAdvection (prepareGrid s) with averageDensity := 0 })).averageDensity
      = p0.rho_corr := by
    rw [pressureSolveBody_averageDensity, pressureSolveBody_map_rho_corr,
      pressureSolveBody_length, hu0p]
    simp
    rw [hrc2]
  have hok : ¬ (pressureSolveBody (pressureSolveBody
      { predictAdvection (prepareGrid s) with averageDensity := 0 })).averageDensity -
      (predictAdvection (prepareGrid s)).fluidParams.density >
      (predictAdvection (prepareGrid s)).maxDensityError := by
    rw [havg, predictAdvection_fluidParams, prepareGrid_fluidParams,
      predictAdvection_maxDensityError, prepareGrid_maxDensityError]
    exact hconv
  have hSolve := pressureSolve_two_iterations (predictAdvection (prepareGrid s)) h2u hok
  have hs3len : (pressureSolveBody (pressureSolveBody
      { predictAdvection (prepareGrid s) with averageDensity := 0 })).particles.length = 1 := by
    rw [pressureSolveBody_length, pressureSolveBody_length, hu0p]
    rfl
  obtain ⟨q3, hq3⟩ := List.length_eq_one.mp hs3len
  have hfield : ∀ {α : Type} (φ : Particle → α),
      (∀ (u : State) (i : Nat) (pi : Particle), φ (computeSumDijPj u i pi) = φ pi) →
      (∀ (u : State) (i : Nat) (pi : Particle), φ (computeWCSPHPressure u i pi) = φ pi) →
      φ q3 = φ q2 := by
    intro α φ h1 h2
    have hm : (pressureSolveBody (pressureSolveBody
        { predictAdvection (prepareGrid s) with averageDensity := 0 })).particles.map φ =
        [φ q2] := by
      rw [pressureSolveBody_map _ φ h1 h2, pressureSolveBody_map _ φ h1 h2, hu0p]
      rfl
    rw [hq3] at hm
    simpa using hm
  have hx3 : q3.x = q2.x := hfield (fun q => q.x) (fun _ _ _ => rfl) (fun _ _ _ => rfl)
  have hva3 : q3.v_adv = q2.v_adv :=
    hfield (fun q => q.v_adv) (fun _ _ _ => rfl) (fun _ _ _ => rfl)
  have hfn3 : q3.fluidNeighbor = q2.fluidNeighbor :=
    hfield (fun q => q.fluidNeighbor) (fun _ _ _ => rfl) (fun _ _ _ => rfl)
  have hbn3 : q3.boundaryNeighbor = q2.boundaryNeighbor :=
    hfield (fun q => q.boundaryNeighbor) (fun _ _ _ => rfl) (fun _ _ _ => rfl)
  have hsurf3 : q3.isSurface = q2.isSurface :=
    hfield (fun q => q.isSurface) (fun _ _ _ => rfl) (fun _ _ _ => rfl)
  have hrc3 : q3.rho_corr = q2.rho_corr :=
    hfield (fun q => q.rho_corr) (fun _ _ _ => rfl) (fun _ _ _ => rfl)
  have hs3dt : (pressureSolveBody (pressureSolveBody
      { predictAdvection (prepareGrid s) with averageDensity := 0 })).dt = s.dt := by
    rw [pressureSolveBody_dt, pressureSolveBody_dt, averageDensityReset_dt, predictAdvection_dt,
      prepareGrid_dt]
  obtain ⟨q4, hInt, hv4, hx4, hrc4, hsurf4, hfp4⟩ :=
    integration_single _ q3 hq3
      (by rw [hfn3, hfn2]; exact hL) (hbn3.trans hbn2)
  have hintps : (integration (pressureSolveBody (pressureSolveBody
      { predictAdvection (prepareGrid s) with averageDensity := 0 }))).pSources = [] := by
    rw [integration_pSources, pressureSolveBody_pSources, pressureSolveBody_pSources,
      averageDensityReset_pSources, predictAdvection_pSources, prepareGrid_pSources, hsrc]
  have hA := applySources_of_empty _ hintps
  have hstep : computeSimulationStep 3 s = some
      (computeStats (applySinks (applySources (integration (pressureSolveBody (pressureSolveBody
        { predictAdvection (prepareGrid s) with averageDensity := 0 })))))) := by
    unfold computeSimulationStep
    rw [hSolve]
  refine ⟨_, q4, hstep, ?_, ?_, ?_, ?_, ?_, ?_, ?_, ?_, ?_, ?_, ?_, ?_⟩
  · rw [hA, applySinks_eq, computeStats_particles]
    exact hInt
  · rw [hv4, hva3, hva2, prepareGrid_dt, prepareGrid_fluidParams, prepareGrid_gravity]
  · rw [hx4, hx3, hx2, hva3, hva2, hs3dt, prepareGrid_dt, prepareGrid_fluidParams,
      prepareGrid_gravity]
  · rw [hsurf4, hsurf3, hsurf2]
  · rw [hrc4, hrc3, hrc2]
  · rw [hA, applySinks_eq, computeStats_pSources]
    exact hintps
  · rw [hA, applySinks_eq, computeStats_boundaryGrid, integration_boundaryGrid,
      pressureSolveBody_boundaryGrid, pressureSolveBody_boundaryGrid,
      averageDensityReset_boundaryGrid, predictAdvection_boundaryGrid, prepareGrid_boundaryGrid]
    exact hbg
  · rw [hA, applySinks_eq, computeStats_maxIter, integration_maxIter,
      pressureSolveBody_maxIter, pressureSolveBody_maxIter, averageDensityReset_maxIter,
      predictAdvection_maxIter, prepareGrid_maxIter]
    exact hmax
  · rw [hA, applySinks_eq, computeStats_fluidParams, integration_fluidParams,
      pressureSolveBody_fluidParams, pressureSolveBody_fluidParams,
      averageDensityReset_fluidParams, predictAdvection_fluidParams, prepareGrid_fluidParams]
  · rw [hA, applySinks_eq, computeStats_dt, integration_dt, pressureSolveBody_dt,
      pressureSolveBody_dt, averageDensityReset_dt, predictAdvection_dt, prepareGrid_dt]
  · rw [hA, applySinks_eq, computeStats_gravity, integration_gravity, pressureSolveBody_gravity,
      pressureSolveBody_gravity, averageDensityReset_gravity, predictAdvection_gravity,
      prepareGrid_gravity]
  · rw [hA, applySinks_eq, computeStats_maxDensityError, integration_maxDensityError,
      pressureSolveBody_maxDensityError, pressureSolveBody_maxDensityError,
      averageDensityReset_maxDensityError, predictAdvection_maxDensityError,
      prepareGrid_maxDensityError]

/-! ### C4 — symplectic Euler integration -/

theorem stageMap_dt (Z : State) (f : State → Nat → Particle → Particle) :
    (stageMap Z f).dt = Z.dt := rfl

theorem bumpTime_dt (Z : State) :
    ({ Z with countTime := Z.countTime + 1, time := Z.time + Z.dt } : State).dt = Z.dt := rfl

theorem integrationKernel_v (u : State) (pi : Particle) :
    (integrationKernel u pi).v = pi.v_adv + (u.dt / pi.fluidParams.mass) • pi.f_p := rfl

theorem integrationKernel_x (u : State) (pi : Particle) :
    (integrationKernel u pi).x =
      pi.x + u.dt • (pi.v_adv + (u.dt / pi.fluidParams.mass) • pi.f_p) := rfl

/-- C4: `integration` is semi-implicit (symplectic) Euler — for every
particle, `v = v_adv + (dt / mass) * f_p` with the pressure force
computed by the preceding stage, and then `x += dt * v` using the same
step's new velocity; and for a single particle with no fluid or boundary
neighbors one whole simulation step yields exactly
`v_new = v_old + dt * g` and `x_new = x_old + dt * v_new`. -/
theorem integration_symplectic_euler :
    (∀ (s : State) (i : Nat), i < s.particles.length →
      (getP (integration s).particles i).v =
        (getP (stageMap { s with countTime := s.countTime + 1, time := s.time + s.dt }
            computePressureForce).particles i).v_adv +
        (s.dt / (getP (stageMap { s with countTime := s.countTime + 1, time := s.time + s.dt }
            computePressureForce).particles i).fluidParams.mass) •
          (getP (stageMap { s with countTime := s.countTime + 1, time := s.time + s.dt }
            computePressureForce).particles i).f_p ∧
      (getP (integration s).particles i).x =
        (getP (stageMap { s with countTime := s.countTime + 1, time := s.time + s.dt }
            computePressureForce).particles i).x +
        s.dt • (getP (integration s).particles i).v) ∧
    (∀ (s : State) (p0 : Particle), s.particles = [p0] → s.boundaryGrid = emptyBuckets →
      s.pSources = [] → s.maxPressureSolveIterationNb = 2 →
      s.fluidParams.mass ≠ 0 →
      ¬ p0.rho_corr - s.fluidParams.density > s.maxDensityError →
      ∃ sOut pOut, computeSimulationStep 3 s = some sOut ∧ sOut.particles = [pOut] ∧
        pOut.v = p0.v + s.dt • s.gravity ∧
        pOut.x = p0.x + s.dt • (p0.v + s.dt • s.gravity)) := by
  constructor
  · intro s i h
    have hlen1 : i < (stageMap { s with countTime := s.countTime + 1, time := s.time + s.dt }
        computePressureForce).particles.length := by
      rw [length_stageMap]; exact h
    have e1 : getP (integration s).particles i =
        integrationKernel
          (stageMap { s with countTime := s.countTime + 1, time := s.time + s.dt }
            computePressureForce)
          (getP (stageMap { s with countTime := s.countTime + 1, time := s.time + s.dt }
            computePressureForce).particles i) := by
      show getP (stageMap (stageMap _ computePressureForce) _).particles i = _
      rw [getP_stageMap _ _ _ hlen1]
    constructor
    · rw [e1, integrationKernel_v, stageMap_dt, bumpTime_dt]
    · rw [e1, integrationKernel_x, integrationKernel_v, stageMap_dt, bumpTime_dt]
  · intro s p0 hp hbg hsrc hmax hms hconv
    obtain ⟨sOut, pOut, hstep, hpart, hv, hx, _, _, _, _, _, _, _, _, _⟩ :=
      computeSimulationStep_single s p0 hp hbg hsrc hmax hconv
    have hsimp : (s.dt / s.fluidParams.mass) • (s.fluidParams.mass • s.gravity) =
        s.dt • s.gravity := by
      rw [smul_smul, div_mul_cancel₀ _ hms]
    exact ⟨sOut, pOut, hstep, hpart, by rw [hv, hsimp], by rw [hx, hsimp]⟩

/-- Witness for C4 at the one-particle scene: one step moves the
particle exactly by symplectic Euler under gravity. -/
theorem integration_symplectic_euler_witness :
    ((computeSimulationStep 3 witState).map
      (fun s' => s'.particles.map (fun q => (q.v, q.x)))) =
      some [(⟨1, 2 - 981/10000, 3⟩, ⟨2 + (1/100) * 1, 2 + (1/100) * (2 - 981/10000),
        2 + (1/100) * 3⟩)] := by
  obtain ⟨sOut, pOut, hstep, hpart, hv, hx⟩ :=
    integration_symplectic_euler.2 witState witParticle rfl rfl rfl rfl
      (by norm_num [witState, witFluidParams]) (by norm_num [witState, witParticle,
        witFluidParams, defaultParticle])
  rw [hstep, Option.map_some', hpart]
  simp only [List.map_cons, List.map_nil]
  rw [hv, hx]
  refine congrArg some (congrArg₂ List.cons (congrArg₂ Prod.mk ?_ ?_) rfl)
  · show witParticle.v + witState.dt • witState.gravity = _
    ext <;> norm_num [witParticle, witState, defaultParticle]
  · show witParticle.x + witState.dt • (witParticle.v + witState.dt • witState.gravity) = _
    ext <;> norm_num [witParticle, witState, defaultParticle]

/-! ### `init` on a one-particle state; remaining witnesses -/

/-- On a state whose particle can only be its own neighbor, `prepareGrid`
behaves like `prepareGridCore` after the optional sort. -/
theorem prepareGrid_single (X : State) (p0 : Particle) (hp : X.particles = [p0])
    (hbg : X.boundaryGrid = emptyBuckets) :
    ∃ L, (prepareGrid X).particles =
        [{ p0 with fluidNeighbor := L, boundaryNeighbor := [] }] ∧ ∀ j ∈ L, j = 0 := by
  have hs0p : (if X.countTime % 100 = 0 then mortonSort X else X).particles = [p0] := by
    split
    · exact mortonSort_singleton X p0 hp
    · exact hp
  have hs0bg : (if X.countTime % 100 = 0 then mortonSort X else X).boundaryGrid =
      emptyBuckets := by
    split <;> exact hbg
  obtain ⟨L, B, h1, h2, h3⟩ := prepareGridCore_single _ p0 hs0p
  rw [h3 hs0bg] at h1
  exact ⟨L, h1, h2⟩

theorem mortonSort_boundaries (Z : State) : (mortonSort Z).boundaries = Z.boundaries := rfl

theorem mortonSort_pSources (Z : State) : (mortonSort Z).pSources = Z.pSources := rfl

theorem mortonSort_maxIter (Z : State) :
    (mortonSort Z).maxPressureSolveIterationNb = Z.maxPressureSolveIterationNb := rfl

theorem mortonSort_fluidParams (Z : State) : (mortonSort Z).fluidParams = Z.fluidParams := rfl

theorem mortonSort_maxDensityError (Z : State) :
    (mortonSort Z).maxDensityError = Z.maxDensityError := rfl

theorem mortonSort_dt (Z : State) : (mortonSort Z).dt = Z.dt := rfl

theorem mortonSort_gravity (Z : State) : (mortonSort Z).gravity = Z.gravity := rfl

theorem initGrids_particles (Z : State) : (initGrids Z).particles = Z.particles := rfl

theorem initGrids_boundaryGrid (Z : State) :
    (initGrids Z).boundaryGrid = buildGrid Z.gridInfo (Z.boundaries.map Boundary.x) := rfl

theorem initGrids_pSources (Z : State) : (initGrids Z).pSources = Z.pSources := rfl

theorem initGrids_maxIter (Z : State) :
    (initGrids Z).maxPressureSolveIterationNb = Z.maxPressureSolveIterationNb := rfl

theorem initGrids_fluidParams (Z : State) : (initGrids Z).fluidParams = Z.fluidParams := rfl

theorem initGrids_maxDensityError (Z : State) :
    (initGrids Z).maxDensityError = Z.maxDensityError := rfl

theorem initGrids_dt (Z : State) : (initGrids Z).dt = Z.dt := rfl

theorem initGrids_gravity (Z : State) : (initGrids Z).gravity = Z.gravity := rfl

theorem computeBoundaryVolume_particles (Z : State) :
    (computeBoundaryVolume Z).particles = Z.particles := rfl

theorem computeBoundaryVolume_boundaryGrid (Z : State) :
    (computeBoundaryVolume Z).boundaryGrid = Z.boundaryGrid := rfl

theorem computeBoundaryVolume_pSources (Z : State) :
    (computeBoundaryVolume Z).pSources = Z.pSources := rfl

theorem computeBoundaryVolume_maxIter (Z : State) :
    (computeBoundaryVolume Z).maxPressureSolveIterationNb = Z.maxPressureSolveIterationNb := rfl

theorem computeBoundaryVolume_fluidParams (Z : State) :
    (computeBoundaryVolume Z).fluidParams = Z.fluidParams := rfl

theorem computeBoundaryVolume_maxDensityError (Z : State) :
    (computeBoundaryVolume Z).maxDensityError = Z.maxDensityError := rfl

theorem computeBoundaryVolume_dt (Z : State) : (computeBoundaryVolume Z).dt = Z.dt := rfl

theorem computeBoundaryVolume_gravity (Z : State) :
    (computeBoundaryVolume Z).gravity = Z.gravity := rfl

theorem buildGrid_nil (g : GridUtility) : buildGrid g [] = emptyBuckets := rfl

theorem init_particles (Z : State) :
    (init Z).particles =
      (prepareGrid (computeBoundaryVolume (initGrids (mortonSort Z)))).particles.map
        (fun q => { q with isSurface := true }) := rfl

/-- `init` on a one-particle state with no boundaries: the particle keeps
its kinematic fields, gets a self-only fluid-neighbor list, an empty
boundary-neighbor list and a raised surface flag, while the fields
needed to take a simulation step afterwards carry over. -/
theorem init_single (s : State) (p0 : Particle) (hp : s.particles = [p0])
    (hb : s.boundaries = []) :
    ∃ L, (init s).particles =
        [{ p0 with fluidNeighbor := L, boundaryNeighbor := [], isSurface := true }] ∧
      (∀ j ∈ L, j = 0) ∧
      (init s).boundaryGrid = emptyBuckets ∧ (init s).pSources = s.pSources ∧
      (init s).maxPressureSolveIterationNb = s.maxPressureSolveIterationNb ∧
      (init s).fluidParams = s.fluidParams ∧ (init s).maxDensityError = s.maxDensityError ∧
      (init s).dt = s.dt ∧ (init s).gravity = s.gravity := by
  have h0p : (mortonSort s).particles = [p0] := mortonSort_singleton s p0 hp
  have h2p : (computeBoundaryVolume (initGrids (mortonSort s))).particles = [p0] := h0p
  have hbgE : (computeBoundaryVolume (initGrids (mortonSort s))).boundaryGrid =
      emptyBuckets := by
    rw [computeBoundaryVolume_boundaryGrid, initGrids_boundaryGrid, mortonSort_boundaries, hb,
      List.map_nil, buildGrid_nil]
  obtain ⟨L, hPP, hLL⟩ :=
    prepareGrid_single (computeBoundaryVolume (initGrids (mortonSort s))) p0 h2p hbgE
  refine ⟨L, ?_, hLL, ?_, ?_, ?_, ?_, ?_, ?_, ?_⟩
  · rw [init_particles, hPP]
    rfl
  · show (prepareGrid (computeBoundaryVolume (initGrids (mortonSort s)))).boundaryGrid = _
    rw [prepareGrid_boundaryGrid, hbgE]
  · show (prepareGrid (computeBoundaryVolume (initGrids (mortonSort s)))).pSources = _
    rw [prepareGrid_pSources, computeBoundaryVolume_pSources, initGrids_pSources,
      mortonSort_pSources]
  · show State.maxPressureSolveIterationNb
      (prepareGrid (computeBoundaryVolume (initGrids (mortonSort s)))) = _
    rw [prepareGrid_maxIter, computeBoundaryVolume_maxIter, initGrids_maxIter,
      mortonSort_maxIter]
  · show (prepareGrid (computeBoundaryVolume (initGrids (mortonSort s)))).fluidParams = _
    rw [prepareGrid_fluidParams, computeBoundaryVolume_fluidParams, initGrids_fluidParams,
      mortonSort_fluidParams]
  · show (prepareGrid (computeBoundaryVolume (initGrids (mortonSort s)))).maxDensityError = _
    rw [prepareGrid_maxDensityError, computeBoundaryVolume_maxDensityError,
      initGrids_maxDensityError, mortonSort_maxDensityError]
  · show (prepareGrid (computeBoundaryVolume (initGrids (mortonSort s)))).dt = _
    rw [prepareGrid_dt, computeBoundaryVolume_dt, initGrids_dt, mortonSort_dt]
  · show (prepareGrid (computeBoundaryVolume (initGrids (mortonSort s)))).gravity = _
    rw [prepareGrid_gravity, computeBoundaryVolume_gravity, initGrids_gravity,
      mortonSort_gravity]

/-- Witness for C5 at the one-particle scene: starting from
`init witState` (no sources registered), two full simulation steps
succeed and the particle count equals the initialized count. -/
theorem particle_count_invariants_witness :
    witState.pSources = [] ∧
    ∃ s2 : State, iterateSteps 3 2 (init witState) = some s2 ∧
      s2.particles.length = (init witState).particles.length := by
  obtain ⟨L, hIP, hLL, hIbg, hIsrc, hImax, hIfp, hImde, hIdt, hIg⟩ :=
    init_single witState witParticle rfl rfl
  have hIsrc' : (init witState).pSources = [] := hIsrc
  have hImax' : (init witState).maxPressureSolveIterationNb = 2 := hImax
  obtain ⟨s1, q1, hstep1, hpart1, hv1, hx1, hsurf1, hrc1, hps1, hbg1, hmax1, hfp1,
      hdt1, hg1, hmde1⟩ :=
    computeSimulationStep_single (init witState) _ hIP hIbg hIsrc' hImax' (by
      show ¬ witParticle.rho_corr - (init witState).fluidParams.density >
        (init witState).maxDensityError
      rw [hIfp, hImde]
      norm_num [witState, witParticle, witFluidParams, defaultParticle])
  have hconv2 : ¬ q1.rho_corr - s1.fluidParams.density > s1.maxDensityError := by
    rw [hrc1, hfp1, hIfp, hmde1, hImde]
    show ¬ witParticle.rho_corr - witState.fluidParams.density > witState.maxDensityError
    norm_num [witState, witParticle, witFluidParams, defaultParticle]
  obtain ⟨s2, q2, hstep2, hpart2, hv2, hx2, hsurf2, hrc2, hps2, hbg2, hmax2, hfp2,
      hdt2, hg2, hmde2⟩ :=
    computeSimulationStep_single s1 q1 hpart1 hbg1 hps1 hmax1 hconv2
  have hIter : iterateSteps 3 2 (init witState) = some s2 := by
    show (match computeSimulationStep 3 (init witState) with
      | none => none
      | some t => iterateSteps 3 1 t) = some s2
    rw [hstep1]
    show (match computeSimulationStep 3 s1 with
      | none => none
      | some t => iterateSteps 3 0 t) = some s2
    rw [hstep2]
    rfl
  exact ⟨rfl, s2, hIter, particle_count_invariants.2.2.2 3 2 witState s2 rfl hIter⟩

/-- Counterexample to C6: the surface flag is carried through the step,
not recomputed from the step's geometry. `witState` and `witStateSurf`
hold one particle each with identical position, normal and neighbor
lists, differing only in the stored flag; after one full simulation step
the flags still differ (`false` versus `true`), while any recomputation
from geometry (squared-normal threshold, neighbor count, dilation) would
give both runs the same flag. -/
theorem surface_flag_cex :
    ((computeSimulationStep 3 witState).map
        (fun t => t.particles.map (fun q => q.isSurface)) = some [false]) ∧
    ((computeSimulationStep 3 witStateSurf).map
        (fun t => t.particles.map (fun q => q.isSurface)) = some [true]) ∧
    witState.particles.map Particle.x = witStateSurf.particles.map Particle.x ∧
    witState.particles.map Particle.n = witStateSurf.particles.map Particle.n ∧
    witState.particles.map (fun q => q.fluidNeighbor) =
      witStateSurf.particles.map (fun q => q.fluidNeighbor) := by
  refine ⟨?_, ?_, rfl, rfl, rfl⟩
  · obtain ⟨sOut, pOut, hstep, hpart, _, _, hsurf, _⟩ :=
      computeSimulationStep_single witState witParticle rfl rfl rfl rfl
        (by norm_num [witState, witParticle, witFluidParams, defaultParticle])
    rw [hstep, Option.map_some', hpart]
    simp only [List.map_cons, List.map_nil]
    rw [hsurf]
    rfl
  · obtain ⟨sOut, pOut, hstep, hpart, _, _, hsurf, _⟩ :=
      computeSimulationStep_single witStateSurf witParticleSurf rfl rfl rfl rfl
        (by norm_num [witStateSurf, witParticleSurf, witState, witParticle,
          witFluidParams, defaultParticle])
    rw [hstep, Option.map_some', hpart]
    simp only [List.map_cons, List.map_nil]
    rw [hsurf]
    rfl

/-- Witness for C6 at the one-particle scene: a concrete step succeeds
and its flag multiset is carried over; `init` raises the flag on the
concrete state; `isSurfaceParticle` at a concrete input is exactly the
squared-normal test. -/
theorem surface_flag_never_recomputed_witness :
    (∃ s' : State, computeSimulationStep 3 witState = some s' ∧
      (s'.particles.map (fun q => q.isSurface)).Perm
        (witState.particles.map (fun q => q.isSurface))) ∧
    (∀ q ∈ (init witState).particles, q.isSurface = true) ∧
    isSurfaceParticle witState 0 (1/20) =
      decide ((1/20 : ℚ) < (getP witState.particles 0).n.lengthSquared) := by
  obtain ⟨sOut, pOut, hstep, _⟩ :=
    computeSimulationStep_single witState witParticle rfl rfl rfl rfl
      (by norm_num [witState, witParticle, witFluidParams, defaultParticle])
  exact ⟨⟨sOut, hstep, surface_flag_never_recomputed.1 3 witState sOut rfl hstep⟩,
    surface_flag_never_recomputed.2.1 witState,
    surface_flag_never_recomputed.2.2 witState 0 (1/20)⟩

/-- C8: after the neighbor-search pass `prepareGrid` over a static
configuration in which every particle carries the system smoothing
radius, fluid-neighbor membership is symmetric: for any two valid
particle indices, `j` is in `i`'s fluid-neighbor list iff `i` is in
`j`'s. -/
theorem prepareGrid_neighbor_symmetry (s : State) (i j : Nat)
    (hi : i < s.particles.length) (hj : j < s.particles.length)
    (hshared : ∀ q ∈ s.particles,
      q.fluidParams.smoothingRadius = s.fluidParams.smoothingRadius) :
    (j ∈ (getP (prepareGrid s).particles i).fluidNeighbor ↔
     i ∈ (getP (prepareGrid s).particles j).fluidNeighbor) := by
  have key : ∀ t : State, t.particles.length = s.particles.length →
      (∀ q ∈ t.particles, q.fluidParams.smoothingRadius = s.fluidParams.smoothingRadius) →
      (j ∈ (getP (prepareGridCore t).particles i).fluidNeighbor ↔
       i ∈ (getP (prepareGridCore t).particles j).fluidNeighbor) := by
    intro t hlen hsh
    have hit : i < t.particles.length := by rw [hlen]; exact hi
    have hjt : j < t.particles.length := by rw [hlen]; exact hj
    refine prepareGridCore_neighbor_symm t i j hit hjt ?_
    rw [hsh (getP t.particles i) (getP_mem t.particles i hit),
      hsh (getP t.particles j) (getP_mem t.particles j hjt)]
  unfold prepareGrid
  split
  · refine key (mortonSort s) (mortonSort_length s) ?_
    intro q hq
    exact hshared q ((mortonSort_perm s).subset hq)
  · exact key s rfl hshared

/-- Witness for C8 at the two-particle scene: symmetry of the
fluid-neighbor relation between the two particles sharing a cell. -/
theorem prepareGrid_neighbor_symmetry_witness :
    (1 ∈ (getP (prepareGrid witState2).particles 0).fluidNeighbor ↔
     0 ∈ (getP (prepareGrid witState2).particles 1).fluidNeighbor) := by
  refine prepareGrid_neighbor_symmetry witState2 0 1 (by decide) (by decide) ?_
  intro q hq
  have hq' : q ∈ [witParticle, witParticleB] := hq
  simp only [List.mem_cons, List.not_mem_nil, or_false] at hq'
  rcases hq' with rfl | rfl <;> rfl

/-- C9: for a particle whose position lies in a cell inside the grid and
whose smoothing radius is positive, the neighbor-search pass puts the
particle's own index in its own fluid-neighbor list (its squared
distance to itself, 0, passes the strict test against the squared lookup
radius); consequently `computeDensity` includes the self-contribution
`mass * W(0)` as one of the summed fluid terms of that particle's
density. -/
theorem self_neighbor_in_density (s : State) (i : Nat) (hi : i < s.particles.length)
    (hin : s.gridInfo.isInsideCell (s.gridInfo.worldToGrid (getP s.particles i).x) = true)
    (hr : 0 < (getP s.particles i).fluidParams.smoothingRadius) :
    i ∈ (getP (prepareGridCore s).particles i).fluidNeighbor ∧
    ((getP (prepareGridCore s).particles i).fluidParams.mass *
        (getP (prepareGridCore s).particles i).fluidParams.monaghanKernel.monaghanValue 0) ∈
      ((getP (prepareGridCore s).particles i).fluidNeighbor.map (fun j =>
        (getP (prepareGridCore s).particles j).fluidParams.mass *
        (getP (prepareGridCore s).particles j).fluidParams.monaghanKernel.monaghanValue
          ((getP (prepareGridCore s).particles i).x -
            (getP (prepareGridCore s).particles j).x))) ∧
    (getP (stageMap (prepareGridCore s) computeDensity).particles i).rho =
      ((getP (prepareGridCore s).particles i).fluidNeighbor.map (fun j =>
        (getP (prepareGridCore s).particles j).fluidParams.mass *
        (getP (prepareGridCore s).particles j).fluidParams.monaghanKernel.monaghanValue
          ((getP (prepareGridCore s).particles i).x -
            (getP (prepareGridCore s).particles j).x))).sum +
      ((getP (prepareGridCore s).particles i).boundaryNeighbor.map (fun j =>
        (getP (prepareGridCore s).particles i).fluidParams.monaghanKernel.monaghanValue
          ((getP (prepareGridCore s).particles i).x -
            (getB (prepareGridCore s).boundaries j).x) *
          (getB (prepareGridCore s).boundaries j).psi)).sum := by
  have hself : i ∈ (getP (prepareGridCore s).particles i).fluidNeighbor := by
    rw [mem_fluidNeighbor_core s i i hi]
    refine ⟨hin, hin, ⟨((0 : ℤ), (0 : ℤ), (0 : ℤ)), by decide, by simp⟩, hi, ?_⟩
    rw [sub_self, Vec3.lengthSquared_zero]
    have h2 : 0 < 2 * (getP s.particles i).fluidParams.smoothingRadius := by linarith
    exact mul_pos h2 h2
  refine ⟨hself, List.mem_map.mpr ⟨i, hself, by rw [sub_self]⟩, ?_⟩
  exact computeDensity_rho (prepareGridCore s) i (by rw [prepareGridCore_length]; exact hi)

/-- Witness for C9 at the concrete scene: after the search pass,
particle 0's own index is in its own fluid-neighbor list. -/
theorem self_neighbor_in_density_witness :
    0 ∈ (getP (prepareGridCore witState).particles 0).fluidNeighbor := by
  refine (self_neighbor_in_density witState 0 (by decide) ?_ (by
    norm_num [witState, witParticle, witFluidParams, getP, defaultParticle,
      List.getD_cons_zero])).1
  norm_num [witState, witParticle, getP, defaultParticle, List.getD_cons_zero,
    GridUtility.worldToGrid, GridUtility.isInsideCell]

end Hokusai

